import Mathlib

/-!
# kafka-topic-exporter: the metric-translation engine

A shallow embedding of `topic-exporter.go` and of the record types of `types.go`.

* The Prometheus default registry, which the source reaches through package-level
  variables, is an explicit `Registry`: a map from an instrument and a label-value
  tuple to the current value of that series (`none`: the series was never created).
* Gauge values (`float64` in the source) range over an arbitrary type `V` with a zero and
  an addition. Overwriting never computes with a value, so every statement about `Set`
  holds for any `V`; what depends on the rounding of sums is stated for `F64`, the
  `float64` values with their rounded addition.
* Go pointers (`*SliceData`, `*Metadata`, `*Context`, `*Metrics`, `*OnosPort`) are
  `Option`s, and a nil dereference ends the run in `Result.panicked`.
* Every `Set` and `Add` performed is also recorded, in order, in `State.calls`, so that
  the number and kind of instrument updates can be stated.
* `json.Unmarshal` (standard library) is a parameter of the dispatcher.
* `exportOnosAaaKPI` selects nine fields that the declaration of `OnosAaaKPI` in
  `types.go` does not have; the value of such a selector is a parameter (`undeclared`).
-/

namespace KafkaTopicExporter

/-! ## The metric instruments (`topic-exporter.go`, the `var` block) -/

/-- The package-level instruments of `topic-exporter.go`, under their Go variable names. -/
inductive Instrument
  | volthaTxBytesTotal
  | volthaRxBytesTotal
  | volthaTxPacketsTotal
  | volthaRxPacketsTotal
  | volthaTxErrorPacketsTotal
  | volthaRxErrorPacketsTotal
  | onosTxBytesTotal
  | onosRxBytesTotal
  | onosTxPacketsTotal
  | onosRxPacketsTotal
  | onosTxDropPacketsTotal
  | onosRxDropPacketsTotal
  | onosaaaRxAcceptResponses
  | onosaaaRxRejectResponses
  | onosaaaRxChallengeResponses
  | onosaaaTxAccessRequests
  | onosaaaRxInvalidValidators
  | onosaaaRxUnknownType
  | onosaaaPendingRequests
  | onosaaaRxDroppedResponses
  | onosaaaRxMalformedResponses
  | onosaaaRxUnknownserver
  | onosaaaRequestRttMillis
  | onosaaaRequestReTx
  | onosaaaEapolLogoffRx
  | onosaaaEapolResIdentityMsgTrans
  | onosaaaAuthSuccessTrans
  | onosaaaAuthFailureTrans
  | onosaaaStartReqTrans
  | onosaaaTxAccessReqPkt
  | onosaaaRxaccessChallPkt
  | onosaaaEapPktTxauthEap
  | onosaaaTransRespnotNak
  deriving DecidableEq, Repr

open Instrument

/-- The `Name` given in the `GaugeOpts` of each instrument. -/
def Instrument.name : Instrument → String
  | volthaTxBytesTotal => "voltha_tx_bytes_total"
  | volthaRxBytesTotal => "voltha_rx_bytes_total"
  | volthaTxPacketsTotal => "voltha_tx_packets_total"
  | volthaRxPacketsTotal => "voltha_rx_packets_total"
  | volthaTxErrorPacketsTotal => "voltha_tx_error_packets_total"
  | volthaRxErrorPacketsTotal => "voltha_rx_error_packets_total"
  | onosTxBytesTotal => "onos_tx_bytes_total"
  | onosRxBytesTotal => "onos_rx_bytes_total"
  | onosTxPacketsTotal => "onos_tx_packets_total"
  | onosRxPacketsTotal => "onos_rx_packets_total"
  | onosTxDropPacketsTotal => "onos_tx_drop_packets_total"
  | onosRxDropPacketsTotal => "onos_rx_drop_packets_total"
  | onosaaaRxAcceptResponses => "onosaaa_rx_accept_responses"
  | onosaaaRxRejectResponses => "onosaaa_rx_reject_responses"
  | onosaaaRxChallengeResponses => "onosaaa_rx_challenge_response"
  | onosaaaTxAccessRequests => "onosaaa_tx_access_requests"
  | onosaaaRxInvalidValidators => "onosaaa_rx_invalid_validators"
  | onosaaaRxUnknownType => "onosaaa_rx_unknown_type"
  | onosaaaPendingRequests => "onosaaa_pending_responses"
  | onosaaaRxDroppedResponses => "onosaaa_rx_dropped_responses"
  | onosaaaRxMalformedResponses => "onosaaa_rx_malformed_responses"
  | onosaaaRxUnknownserver => "onosaaa_rx_from_unknown_server"
  | onosaaaRequestRttMillis => "onosaaa_request_rttmillis"
  | onosaaaRequestReTx => "onosaaa_request_re_tx"
  | onosaaaEapolLogoffRx => "onosaaa_eapol_Logoff_Rx"
  | onosaaaEapolResIdentityMsgTrans => "onosaaa_eapol_Res_IdentityMsg_Trans"
  | onosaaaAuthSuccessTrans => "onosaaa_auth_Success_Trans"
  | onosaaaAuthFailureTrans => "onosaaa_auth_Failure_Trans"
  | onosaaaStartReqTrans => "onosaaa_start_Req_Trans"
  | onosaaaTxAccessReqPkt => "onosaaa_access_Req_Pkt_Tx"
  | onosaaaRxaccessChallPkt => "onosaaa_access_Chall_Pkt_Rx"
  | onosaaaEapPktTxauthEap => "onosaaa_eap_Pkt_Tx_auth_Eap"
  | onosaaaTransRespnotNak => "onosaaa_trans_Resp_not_Nak"

/-- The label names every voltha gauge vector is created with. -/
def volthaLabelNames : List String :=
  ["logical_device_id", "serial_number", "device_id", "interface_id", "pon_id",
    "port_number", "title"]

/-- The label names every onos gauge vector is created with. -/
def onosLabelNames : List String := ["device_id", "port_id"]

/-- The label names an instrument was created with: those of its `NewGaugeVec`, and none
for a plain `NewGauge`. -/
def Instrument.labelNames : Instrument → List String
  | volthaTxBytesTotal => volthaLabelNames
  | volthaRxBytesTotal => volthaLabelNames
  | volthaTxPacketsTotal => volthaLabelNames
  | volthaRxPacketsTotal => volthaLabelNames
  | volthaTxErrorPacketsTotal => volthaLabelNames
  | volthaRxErrorPacketsTotal => volthaLabelNames
  | onosTxBytesTotal => onosLabelNames
  | onosRxBytesTotal => onosLabelNames
  | onosTxPacketsTotal => onosLabelNames
  | onosRxPacketsTotal => onosLabelNames
  | onosTxDropPacketsTotal => onosLabelNames
  | onosRxDropPacketsTotal => onosLabelNames
  | _ => []

/-! ## The registry and the gauge primitives of the metrics client -/

/-- The current value of every series: `none` while the series does not exist. -/
abbrev Registry (V : Type) := Instrument → List String → Option V

/-- What a gauge was asked to do: `Set(v)` or `Add(v)`. -/
inductive Op (V : Type)
  | set (v : V)
  | add (v : V)
  deriving DecidableEq, Repr

/-- One instrument update: the instrument, the label values and the operation. -/
structure Call (V : Type) where
  inst : Instrument
  labels : List String
  op : Op V
  deriving DecidableEq, Repr

/-- The two levels at which `topic-exporter.go` logs through the repository logger. -/
inductive LogLevel
  | info
  | warn
  deriving DecidableEq, Repr

/-- The state the exporters act on: the registry, the instrument updates performed so
far (oldest first) and the lines written to the logger (oldest first). -/
structure State (V : Type) where
  reg : Registry V
  calls : List (Call V)
  logs : List (LogLevel × String)

/-- How a run ends: it returns, it panics (nil pointer dereference, or a label tuple of
the wrong length), or it ends the process through `log.Fatal`. Each carries the state
reached. -/
inductive Result (V : Type)
  | returned (s : State V)
  | panicked (s : State V)
  | fatal (s : State V)

/-- The state a run ended in. -/
def Result.state {V : Type} : Result V → State V
  | .returned s => s
  | .panicked s => s
  | .fatal s => s

/-- Whether the run returned normally. -/
def Result.isReturned {V : Type} : Result V → Bool
  | .returned _ => true
  | _ => false

/-- Whether the run ended in `log.Fatal`. -/
def Result.isFatal {V : Type} : Result V → Bool
  | .fatal _ => true
  | _ => false

/-- Whether the run ended in a panic. -/
def Result.isPanicked {V : Type} : Result V → Bool
  | .panicked _ => true
  | _ => false

/-- A statement, or a block of statements. -/
abbrev Stmt (V : Type) := State V → Result V

/-- Sequential composition: the statements run in order, and the first one that does not
return ends the block. -/
def block {V : Type} : List (Stmt V) → Stmt V
  | [] => fun s => .returned s
  | st :: rest => fun s =>
    match st s with
    | .returned s1 => block rest s1
    | r => r

/-- The loop `for _, data := range xs`: the body runs on each element in order, and a
body that does not return ends the loop. -/
def forRange {V α : Type} (body : α → Stmt V) : List α → Stmt V
  | [] => fun s => .returned s
  | x :: xs => fun s =>
    match body x s with
    | .returned s1 => forRange body xs s1
    | r => r

section primitives
variable {V : Type} [Zero V] [Add V]

/-- The registry after `WithLabelValues(lvs...)` on a gauge vector: the series exists,
with value 0 when it was created by this call. -/
def Registry.withLabelValues (r : Registry V) (g : Instrument) (lvs : List String) :
    Registry V :=
  fun g1 l1 => if g1 = g ∧ l1 = lvs then some ((r g lvs).getD 0) else r g1 l1

/-- The registry after a gauge operation on the series `(g, lvs)`: `Set` stores the
value, `Add` stores the sum of the current value and the argument. -/
def Registry.apply (r : Registry V) (g : Instrument) (lvs : List String) (op : Op V) :
    Registry V :=
  fun g1 l1 =>
    if g1 = g ∧ l1 = lvs then
      match op with
      | .set v => some v
      | .add v => some ((r g lvs).getD 0 + v)
    else r g1 l1

/-- The state after a gauge operation: the registry is updated and the call recorded. -/
def State.update (s : State V) (g : Instrument) (lvs : List String) (op : Op V) :
    State V :=
  { s with reg := s.reg.apply g lvs op, calls := s.calls ++ [⟨g, lvs, op⟩] }

/-- The statement `g.WithLabelValues(lvs...).Op(arg)` on a gauge vector. The label
arguments are evaluated first (`none`: a nil pointer was dereferenced on the way), then
`WithLabelValues` runs and panics unless it got one value per label name, then the
argument of the operation is evaluated (`none`: nil dereference), then the gauge is
updated. Go fixes the order of the two calls only; that the argument of the operation is
read after `WithLabelValues` has run is the order of the standard compiler, and it shows
only in a run that panics. -/
def GaugeVec.stmt (g : Instrument) (lvs : Option (List String)) (op : Option (Op V)) :
    Stmt V := fun s =>
  match lvs with
  | none => .panicked s
  | some l =>
    if l.length = g.labelNames.length then
      match op with
      | none => .panicked { s with reg := s.reg.withLabelValues g l }
      | some o => .returned (({ s with reg := s.reg.withLabelValues g l }).update g l o)
    else .panicked s

/-- The statement `g.WithLabelValues(lvs...).Set(v)`. -/
def GaugeVec.Set (g : Instrument) (lvs : Option (List String)) (v : Option V) : Stmt V :=
  GaugeVec.stmt g lvs (v.map Op.set)

/-- The statement `g.WithLabelValues(lvs...).Add(v)`. -/
def GaugeVec.Add (g : Instrument) (lvs : Option (List String)) (v : Option V) : Stmt V :=
  GaugeVec.stmt g lvs (v.map Op.add)

/-- The statement `g.Set(v)` on a plain gauge, whose only series has no labels. -/
def Gauge.Set (g : Instrument) (v : V) : Stmt V := fun s =>
  .returned (s.update g [] (.set v))

end primitives

/-- Modelled from the spec: `logger.Info` of the repository package `common/logger`,
which is not among the sources; the call writes one informational line and returns. -/
def logger.Info {V : Type} (msg : String) : Stmt V := fun s =>
  .returned { s with logs := s.logs ++ [(LogLevel.info, msg)] }

/-- Modelled from the spec: `logger.Warn` of the repository package `common/logger`,
which is not among the sources; the call writes one warning line and returns. -/
def logger.Warn {V : Type} (msg : String) : Stmt V := fun s =>
  .returned { s with logs := s.logs ++ [(LogLevel.warn, msg)] }

/-! ## The KPI records (`types.go`) -/

/-- The Go struct `Metrics`. -/
structure Metrics (V : Type) where
  TxBytes : V
  TxPackets : V
  TxErrorPackets : V
  TxBcastPackets : V
  TxUnicastPackets : V
  TxMulticastPackets : V
  RxBytes : V
  RxPackets : V
  RxErrorPackets : V
  RxBcastPackets : V
  RxMulticastPackets : V
  Packets : V
  Octets : V

/-- The Go struct `Context`. -/
structure Context where
  InterfaceID : String
  PonID : String
  PortNumber : String
  ParentClassId : String
  ParentEntityId : String
  Upstream : String

/-- The Go struct `Metadata`; `Context` is a pointer. -/
structure Metadata (V : Type) where
  LogicalDeviceID : String
  Title : String
  SerialNumber : String
  Timestamp : V
  DeviceID : String
  Context : Option Context

/-- The Go struct `SliceData`; both fields are pointers. -/
structure SliceData (V : Type) where
  Metrics : Option (Metrics V)
  Metadata : Option (Metadata V)

/-- The Go struct `VolthaKPI`; `SliceDatas` is a slice of pointers. -/
structure VolthaKPI (V : Type) where
  type : String
  Timestamp : V
  SliceDatas : List (Option (SliceData V))

/-- The Go struct `OnosPort`. -/
structure OnosPort (V : Type) where
  PortID : String
  RxPackets : V
  TxPackets : V
  RxBytes : V
  TxBytes : V
  RxPacketsDrop : V
  TxPacketsDrop : V

/-- The Go struct `OnosKPI`; `Ports` is a slice of pointers. -/
structure OnosKPI (V : Type) where
  DeviceID : String
  Ports : List (Option (OnosPort V))

/-- The Go struct `ImporterKPI`. -/
structure ImporterKPI where
  DeviceID : String

/-- The Go struct `OnosAaaKPI`, with the twelve fields `types.go` declares. -/
structure OnosAaaKPI (V : Type) where
  RxAcceptResponses : V
  RxRejectResponses : V
  RxChallengeResponses : V
  TxAccessRequests : V
  RxInvalidValidators : V
  RxUnknownType : V
  PendingRequests : V
  RxDroppedResponses : V
  RxMalformedResponses : V
  RxUnknownserver : V
  RequestRttMillis : V
  RequestReTx : V

/-- The fields `types.go` declares for `OnosAaaKPI`, each with its JSON key. -/
def OnosAaaKPI.declaredFields : List (String × String) :=
  [("RxAcceptResponses", "acceptResponsesRx"),
   ("RxRejectResponses", "rejectResponsesRx"),
   ("RxChallengeResponses", "challengeResponsesRx"),
   ("TxAccessRequests", "accessRequestsTx"),
   ("RxInvalidValidators", "invalidValidatorsRx"),
   ("RxUnknownType", "unknownTypeRx"),
   ("PendingRequests", "pendingRequests"),
   ("RxDroppedResponses", "droppedResponsesRx"),
   ("RxMalformedResponses", "malformedResponsesRx"),
   ("RxUnknownserver", "unknownServerRx"),
   ("RequestRttMillis", "requestRttMillis"),
   ("RequestReTx", "requestReTx")]

/-- Whether `types.go` declares a field of this name for `OnosAaaKPI`. -/
def OnosAaaKPI.declares (field : String) : Bool :=
  (OnosAaaKPI.declaredFields.map Prod.fst).contains field

/-- The selector expression `kpi.field` for a field `types.go` declares; `none` for any
other name. -/
def OnosAaaKPI.field? {V : Type} (kpi : OnosAaaKPI V) (field : String) : Option V :=
  if field = "RxAcceptResponses" then some kpi.RxAcceptResponses
  else if field = "RxRejectResponses" then some kpi.RxRejectResponses
  else if field = "RxChallengeResponses" then some kpi.RxChallengeResponses
  else if field = "TxAccessRequests" then some kpi.TxAccessRequests
  else if field = "RxInvalidValidators" then some kpi.RxInvalidValidators
  else if field = "RxUnknownType" then some kpi.RxUnknownType
  else if field = "PendingRequests" then some kpi.PendingRequests
  else if field = "RxDroppedResponses" then some kpi.RxDroppedResponses
  else if field = "RxMalformedResponses" then some kpi.RxMalformedResponses
  else if field = "RxUnknownserver" then some kpi.RxUnknownserver
  else if field = "RequestRttMillis" then some kpi.RequestRttMillis
  else if field = "RequestReTx" then some kpi.RequestReTx
  else none

/-- The zero value `VolthaKPI{}`. -/
def VolthaKPI.zero {V : Type} [Zero V] : VolthaKPI V := ⟨"", 0, []⟩

/-- The zero value `OnosKPI{}`. -/
def OnosKPI.zero {V : Type} : OnosKPI V := ⟨"", []⟩

/-- The zero value `ImporterKPI{}`. -/
def ImporterKPI.zero : ImporterKPI := ⟨""⟩

/-- The zero value `OnosAaaKPI{}`. -/
def OnosAaaKPI.zero {V : Type} [Zero V] : OnosAaaKPI V := ⟨0, 0, 0, 0, 0, 0, 0, 0, 0, 0, 0, 0⟩

/-! ## The exporters (`topic-exporter.go`) -/

section exporters
variable {V : Type} [Zero V] [Add V]

/-- The body of the loop of `exportVolthaKPI`, run on one element `data` of
`kpi.SliceDatas`. The `switch` on `data.Metadata.Title` dereferences `data` and
`data.Metadata`; its cases are tried in source order and a title matching none of them
falls through the `switch`. -/
def exportVolthaKPI.body (data : Option (SliceData V)) : Stmt V := fun s =>
  match data with
  | none => .panicked s
  | some d =>
    match d.Metadata with
    | none => .panicked s
    | some md =>
      if md.Title = "Ethernet" ∨ md.Title = "PON" then
        block [
          GaugeVec.Set volthaTxBytesTotal
            (md.Context.map fun c =>
              [md.LogicalDeviceID, md.SerialNumber, md.DeviceID,
                c.InterfaceID, c.PonID, c.PortNumber, md.Title])
            (d.Metrics.map fun m => m.TxBytes),
          GaugeVec.Set volthaRxBytesTotal
            (md.Context.map fun c =>
              [md.LogicalDeviceID, md.SerialNumber, md.DeviceID,
                c.InterfaceID, c.PonID, c.PortNumber, md.Title])
            (d.Metrics.map fun m => m.RxBytes),
          GaugeVec.Set volthaTxPacketsTotal
            (md.Context.map fun c =>
              [md.LogicalDeviceID, md.SerialNumber, md.DeviceID,
                c.InterfaceID, c.PonID, c.PortNumber, md.Title])
            (d.Metrics.map fun m => m.TxPackets),
          GaugeVec.Set volthaRxPacketsTotal
            (md.Context.map fun c =>
              [md.LogicalDeviceID, md.SerialNumber, md.DeviceID,
                c.InterfaceID, c.PonID, c.PortNumber, md.Title])
            (d.Metrics.map fun m => m.RxPackets),
          GaugeVec.Set volthaTxErrorPacketsTotal
            (md.Context.map fun c =>
              [md.LogicalDeviceID, md.SerialNumber, md.DeviceID,
                c.InterfaceID, c.PonID, c.PortNumber, md.Title])
            (d.Metrics.map fun m => m.TxErrorPackets),
          GaugeVec.Set volthaRxErrorPacketsTotal
            (md.Context.map fun c =>
              [md.LogicalDeviceID, md.SerialNumber, md.DeviceID,
                c.InterfaceID, c.PonID, c.PortNumber, md.Title])
            (d.Metrics.map fun m => m.RxErrorPackets)] s
      else if md.Title = "Ethernet_Bridge_Port_History" then
        match md.Context with
        | none => .panicked s
        | some c =>
          if c.Upstream = "True" then
            block [
              GaugeVec.Add volthaTxPacketsTotal
                (some [md.LogicalDeviceID, md.SerialNumber, md.DeviceID, "NA", "NA", "NA",
                  md.Title])
                (d.Metrics.map fun m => m.Packets),
              GaugeVec.Add volthaTxBytesTotal
                (some [md.LogicalDeviceID, md.SerialNumber, md.DeviceID, "NA", "NA", "NA",
                  md.Title])
                (d.Metrics.map fun m => m.Octets)] s
          else
            block [
              GaugeVec.Add volthaRxPacketsTotal
                (some [md.LogicalDeviceID, md.SerialNumber, md.DeviceID, "NA", "NA", "NA",
                  md.Title])
                (d.Metrics.map fun m => m.Packets),
              GaugeVec.Add volthaRxBytesTotal
                (some [md.LogicalDeviceID, md.SerialNumber, md.DeviceID, "NA", "NA", "NA",
                  md.Title])
                (d.Metrics.map fun m => m.Octets)] s
      else if md.Title = "Ethernet_UNI_History" then
        .returned s
      else if md.Title = "FEC_History" then
        block [
          GaugeVec.Set volthaTxBytesTotal
            (md.Context.map fun c =>
              [md.LogicalDeviceID, md.SerialNumber, md.DeviceID,
                c.InterfaceID, c.PonID, c.PortNumber, md.Title])
            (d.Metrics.map fun m => m.TxBytes),
          GaugeVec.Set volthaRxBytesTotal
            (md.Context.map fun c =>
              [md.LogicalDeviceID, md.SerialNumber, md.DeviceID,
                c.InterfaceID, c.PonID, c.PortNumber, md.Title])
            (d.Metrics.map fun m => m.RxBytes),
          GaugeVec.Set volthaTxPacketsTotal
            (md.Context.map fun c =>
              [md.LogicalDeviceID, md.SerialNumber, md.DeviceID,
                c.InterfaceID, c.PonID, c.PortNumber, md.Title])
            (d.Metrics.map fun m => m.TxPackets),
          GaugeVec.Set volthaRxPacketsTotal
            (md.Context.map fun c =>
              [md.LogicalDeviceID, md.SerialNumber, md.DeviceID,
                c.InterfaceID, c.PonID, c.PortNumber, md.Title])
            (d.Metrics.map fun m => m.RxPackets),
          GaugeVec.Set volthaTxErrorPacketsTotal
            (md.Context.map fun c =>
              [md.LogicalDeviceID, md.SerialNumber, md.DeviceID,
                c.InterfaceID, c.PonID, c.PortNumber, md.Title])
            (d.Metrics.map fun m => m.TxErrorPackets),
          GaugeVec.Set volthaRxErrorPacketsTotal
            (md.Context.map fun c =>
              [md.LogicalDeviceID, md.SerialNumber, md.DeviceID,
                c.InterfaceID, c.PonID, c.PortNumber, md.Title])
            (d.Metrics.map fun m => m.RxErrorPackets)] s
      else if md.Title = "voltha.internal" then
        .returned s
      else
        .returned s

/-- The Go function `exportVolthaKPI`. -/
def exportVolthaKPI (kpi : VolthaKPI V) : Stmt V :=
  forRange exportVolthaKPI.body kpi.SliceDatas

/-- The Go function `exportOnosKPI`; `data` is one element of `kpi.Ports`. -/
def exportOnosKPI (kpi : OnosKPI V) : Stmt V :=
  forRange (fun data => block [
    GaugeVec.Set onosTxBytesTotal (data.map fun p => [kpi.DeviceID, p.PortID])
      (data.map fun p => p.TxBytes),
    GaugeVec.Set onosRxBytesTotal (data.map fun p => [kpi.DeviceID, p.PortID])
      (data.map fun p => p.RxBytes),
    GaugeVec.Set onosTxPacketsTotal (data.map fun p => [kpi.DeviceID, p.PortID])
      (data.map fun p => p.TxPackets),
    GaugeVec.Set onosRxPacketsTotal (data.map fun p => [kpi.DeviceID, p.PortID])
      (data.map fun p => p.RxPackets),
    GaugeVec.Set onosTxDropPacketsTotal (data.map fun p => [kpi.DeviceID, p.PortID])
      (data.map fun p => p.TxPacketsDrop),
    GaugeVec.Set onosRxDropPacketsTotal (data.map fun p => [kpi.DeviceID, p.PortID])
      (data.map fun p => p.RxPacketsDrop)]) kpi.Ports

/-- The Go function `exportImporterKPI`. -/
def exportImporterKPI (_kpi : ImporterKPI) : Stmt V :=
  logger.Info "To be implemented"

/-- The statements of `exportOnosAaaKPI` in source order: the statement
`g.Set(kpi.F)` is the pair of `g` and the field name `F`. -/
def exportOnosAaaKPI.sets : List (Instrument × String) :=
  [(onosaaaRxAcceptResponses, "RxAcceptResponses"),
   (onosaaaRxRejectResponses, "RxRejectResponses"),
   (onosaaaRxChallengeResponses, "RxChallengeResponses"),
   (onosaaaTxAccessRequests, "TxAccessRequests"),
   (onosaaaRxInvalidValidators, "RxInvalidValidators"),
   (onosaaaRxUnknownType, "RxUnknownType"),
   (onosaaaPendingRequests, "PendingRequests"),
   (onosaaaRxDroppedResponses, "RxDroppedResponses"),
   (onosaaaRxMalformedResponses, "RxMalformedResponses"),
   (onosaaaRxUnknownserver, "RxUnknownserver"),
   (onosaaaRequestRttMillis, "RequestRttMillis"),
   (onosaaaRequestReTx, "RequestReTx"),
   (onosaaaEapolLogoffRx, "RxeapolLogoff"),
   (onosaaaEapolResIdentityMsgTrans, "EapolResIdentityMsgTrans"),
   (onosaaaAuthSuccessTrans, "AuthSuccessTrans"),
   (onosaaaAuthFailureTrans, "AuthFailureTrans"),
   (onosaaaStartReqTrans, "StartReqTrans"),
   (onosaaaTxAccessReqPkt, "TxAccessReqPkt"),
   (onosaaaRxaccessChallPkt, "RxaccessChallPkt"),
   (onosaaaEapPktTxauthEap, "EapPktTxauthEap"),
   (onosaaaTransRespnotNak, "TransRespnotNak")]

/-- The Go function `exportOnosAaaKPI`. A selector `kpi.F` is the field `F` of the record
when `types.go` declares it; for a field name `types.go` does not declare, the value of
the selector is taken from the parameter `undeclared`. -/
def exportOnosAaaKPI (undeclared : String → V) (kpi : OnosAaaKPI V) : Stmt V :=
  block (exportOnosAaaKPI.sets.map fun b =>
    Gauge.Set b.1 ((kpi.field? b.2).getD (undeclared b.2)))

/-- A message payload, `[]byte` in the source. -/
abbrev Bytes := List (Fin 256)

/-- The four uses of `json.Unmarshal` in the dispatcher, one per record type; `none`
stands for a non-nil error. The JSON decoder is the Go standard library and is a
parameter here. -/
structure Unmarshal (V : Type) where
  volthaKPI : Bytes → Option (VolthaKPI V)
  onosKPI : Bytes → Option (OnosKPI V)
  importerKPI : Bytes → Option ImporterKPI
  onosAaaKPI : Bytes → Option (OnosAaaKPI V)

/-- The Go function `export` (the name is a keyword of the prover, hence the longer
one): the switch on the topic, the decoding of the payload, `log.Fatal` on a decoding
error, and the exporter of the topic otherwise. The topic, a `*string` in the source, is
the string pointed to. -/
def exportMessage (json : Unmarshal V) (undeclared : String → V) (topic : String)
    (data : Bytes) : Stmt V := fun s =>
  if topic = "voltha.kpis" then
    match json.volthaKPI data with
    | none => .fatal s
    | some kpi => exportVolthaKPI kpi s
  else if topic = "onos.kpis" then
    match json.onosKPI data with
    | none => .fatal s
    | some kpi => exportOnosKPI kpi s
  else if topic = "importer.kpis" then
    match json.importerKPI data with
    | none => .fatal s
    | some kpi => exportImporterKPI kpi s
  else if topic = "onos.aaa.stats.kpis" then
    match json.onosAaaKPI data with
    | none => .fatal s
    | some kpi => exportOnosAaaKPI undeclared kpi s
  else
    logger.Warn "Unexpected export. Should not come here" s

end exporters

/-- The state after a list of gauge operations performed in order. -/
def State.updates {V : Type} [Zero V] [Add V] (s : State V) (cs : List (Call V)) : State V :=
  cs.foldl (fun st c => st.update c.inst c.labels c.op) s

/-- A statement that never ends the process through `log.Fatal`. -/
def NeverFatal {V : Type} (st : Stmt V) : Prop := ∀ s, (st s).isFatal = false

/-! ## Sample data -/

/-- The registry at startup: every plain gauge exists with value 0 and no gauge vector
has a series yet. -/
def Registry.initial {V : Type} [Zero V] : Registry V :=
  fun g l => if g.labelNames = [] ∧ l = [] then some 0 else none

/-- The state at startup. -/
def State.initial {V : Type} [Zero V] : State V := ⟨Registry.initial, [], []⟩

/-- A context with upstream "True". -/
def sampleContext : Context := ⟨"0", "1", "2", "", "", "True"⟩

/-- Metrics with tx_bytes 100, packets 5 and octets 320. -/
def sampleMetrics : Metrics ℚ := ⟨100, 7, 1, 0, 0, 0, 200, 9, 2, 0, 0, 5, 320⟩

/-- Metadata of the given title, with the sample context. -/
def sampleMetadata (title : String) : Metadata ℚ :=
  ⟨"ld", title, "sn", 0, "dev", some sampleContext⟩

/-- A slice entry of the given title, with the sample metadata and metrics. -/
def sampleSlice (title : String) : SliceData ℚ :=
  ⟨some sampleMetrics, some (sampleMetadata title)⟩

/-- A slice entry of the given title with neither context nor metrics. -/
def bareSlice (title : String) : SliceData ℚ :=
  ⟨none, some ⟨"ld", title, "sn", 0, "dev", none⟩⟩

/-- Two ports. -/
def samplePorts : List (OnosPort ℚ) :=
  [⟨"1", 10, 20, 30, 40, 1, 2⟩, ⟨"2", 11, 21, 31, 41, 3, 4⟩]

/-- A decoder that fails on the empty payload and yields the zero-valued record on every
other payload. -/
def sampleUnmarshal : Unmarshal ℚ :=
  ⟨fun b => if b = [] then none else some VolthaKPI.zero,
   fun b => if b = [] then none else some OnosKPI.zero,
   fun b => if b = [] then none else some ImporterKPI.zero,
   fun b => if b = [] then none else some OnosAaaKPI.zero⟩

/-- Metrics with tx_bytes 150. -/
def sampleMetrics2 : Metrics ℚ := ⟨150, 8, 1, 0, 0, 0, 250, 10, 2, 0, 0, 6, 400⟩

/-- A record of three entries: an Ethernet entry, a bridge-port entry, and a second
Ethernet entry with the label tuple of the first and other metrics. -/
def sampleRecord : VolthaKPI ℚ :=
  ⟨"slice", 0, [some (sampleSlice "Ethernet"),
    some (sampleSlice "Ethernet_Bridge_Port_History"),
    some ⟨some sampleMetrics2, some (sampleMetadata "Ethernet")⟩]⟩

/-! ## The arithmetic of gauge values: IEEE 754 binary64 -/

/-- A `float64`. Every finite `float64` is an integer multiple of 2^-1074, the smallest
positive one, and `fin n` stands for the value `n * 2^-1074`; `inf` is an infinity with
its sign, `nan` a not-a-number. The two zeros are not told apart. -/
inductive F64
  | fin (n : Int)
  | inf (negative : Bool)
  | nan
  deriving DecidableEq

/-- The spacing of the `float64` values around `a * 2^-1074`, in units of 2^-1074: the
least power of two `q`, from the one given, that leaves `a / q` below 2^53. -/
def F64.quantum : Nat → Nat → Nat → Nat
  | 0, _, q => q
  | fuel + 1, a, q => if a / q < 2 ^ 53 then q else F64.quantum fuel a (2 * q)

/-- The `float64` nearest to `n * 2^-1074`, a tie going to the even significand (the
rounding of every `float64` operation); from 2^1024 on the result is an infinity. -/
def F64.round (n : Int) : F64 :=
  let a := n.natAbs
  let q := F64.quantum a a 1
  let lo := a / q
  let rem := a % q
  let r := (if q < 2 * rem ∨ (2 * rem = q ∧ lo % 2 = 1) then lo + 1 else lo) * q
  if 2 ^ 2098 ≤ r then .inf (decide (n < 0))
  else .fin (if n < 0 then -(r : Int) else r)

/-- The `float64` sum: the exact sum of two finite values, rounded. -/
def F64.add : F64 → F64 → F64
  | .fin a, .fin b => F64.round (a + b)
  | .fin _, .inf s => .inf s
  | .inf s, .fin _ => .inf s
  | .inf s, .inf t => if s = t then .inf s else .nan
  | .nan, _ => .nan
  | _, .nan => .nan

/-- The `float64` zero, the value a gauge is created with. -/
instance : Zero F64 := ⟨.fin 0⟩

/-- The operator `+` on `float64` is `F64.add`. -/
instance : Add F64 := ⟨F64.add⟩

/-- A change of one series that is the identity, the creation of the series (a missing
series appears with value 0, an existing one keeps its value) or the storing of a fixed
value. -/
def IsOverwrite {V : Type} [Zero V] (f : Option V → Option V) : Prop :=
  f = id ∨ f = (fun x => some (x.getD 0)) ∨ ∃ v, f = fun _ => some v

/-- A statement whose effect on the registry is, series by series, an overwrite fixed by
the statement alone, and which returns or not independently of the state it starts in. -/
def OnlyOverwrites {V : Type} [Zero V] (st : Stmt V) : Prop :=
  ∃ (f : Instrument → List String → Option V → Option V) (ret : Bool),
    (∀ g l, IsOverwrite (f g l)) ∧
    ∀ s, (∀ g l, (st s).state.reg g l = f g l (s.reg g l)) ∧ (st s).isReturned = ret

/-! ## Confined statements and the label tuple of an entry -/

/-- A statement confined to the instrument updates satisfying `P`: every update it
performs satisfies `P`, and a series that no update satisfying `P` could target keeps its
value (and its absence). -/
def Confined {V : Type} (P : Call V → Prop) (st : Stmt V) : Prop :=
  ∀ s, (∃ cs, (st s).state.calls = s.calls ++ cs ∧ ∀ c ∈ cs, P c) ∧
    ∀ g l, (∀ o, ¬ P ⟨g, l, o⟩) → (st s).state.reg g l = s.reg g l

/-- The label tuple (logical device, serial number, device, interface, PON, port, title)
of a slice entry; `none` when the entry, its metadata or its context is nil. -/
def entryLabels {V : Type} (e : Option (SliceData V)) : Option (List String) :=
  match e with
  | none => none
  | some d =>
    match d.Metadata with
    | none => none
    | some md =>
      md.Context.map fun c =>
        [md.LogicalDeviceID, md.SerialNumber, md.DeviceID,
          c.InterfaceID, c.PonID, c.PortNumber, md.Title]

/-! ## Basic facts about the primitives -/

section lemmas
set_option linter.unusedSectionVars false
variable {V : Type} [Zero V] [Add V]

theorem apply_withLabelValues (r : Registry V) (g : Instrument)
    (l : List String) (o : Op V) :
    (r.withLabelValues g l).apply g l o = r.apply g l o := by
  funext g1 l1
  by_cases h : g1 = g ∧ l1 = l <;> cases o <;>
    simp [Registry.apply, Registry.withLabelValues, h]

theorem gaugeVec_stmt_some (g : Instrument) (l : List String) (o : Op V) (s : State V)
    (h : l.length = g.labelNames.length) :
    GaugeVec.stmt g (some l) (some o) s = .returned (s.update g l o) := by
  simp [GaugeVec.stmt, h, State.update, apply_withLabelValues]

theorem gaugeVec_Set_some (g : Instrument) (l : List String) (v : V) (s : State V)
    (h : l.length = g.labelNames.length) :
    GaugeVec.Set g (some l) (some v) s = .returned (s.update g l (.set v)) := by
  simp [GaugeVec.Set, gaugeVec_stmt_some g l _ s h]

theorem gaugeVec_Add_some (g : Instrument) (l : List String) (v : V) (s : State V)
    (h : l.length = g.labelNames.length) :
    GaugeVec.Add g (some l) (some v) s = .returned (s.update g l (.add v)) := by
  simp [GaugeVec.Add, gaugeVec_stmt_some g l _ s h]

theorem forRange_singleton {α : Type} (body : α → Stmt V) (x : α) (s : State V) :
    forRange body [x] s = body x s := by
  simp only [forRange]
  cases body x s <;> rfl

theorem exportVolthaKPI_cons (ty : String) (ts : V) (e : Option (SliceData V))
    (rest : List (Option (SliceData V))) (s s1 : State V)
    (h : exportVolthaKPI.body e s = .returned s1) :
    exportVolthaKPI ⟨ty, ts, e :: rest⟩ s = exportVolthaKPI ⟨ty, ts, rest⟩ s1 := by
  simp [exportVolthaKPI, forRange, h]

theorem isOverwrite_comp {f h : Option V → Option V} (hf : IsOverwrite f)
    (hh : IsOverwrite h) : IsOverwrite (fun x => h (f x)) := by
  rcases hh with rfl | rfl | ⟨v, rfl⟩
  · simpa using hf
  · rcases hf with rfl | rfl | ⟨w, rfl⟩
    · exact Or.inr (Or.inl rfl)
    · exact Or.inr (Or.inl (by funext x; simp))
    · exact Or.inr (Or.inr ⟨w, by funext x; simp⟩)
  · exact Or.inr (Or.inr ⟨v, rfl⟩)

theorem isOverwrite_idem {f : Option V → Option V} (hf : IsOverwrite f) (x : Option V) :
    f (f x) = f x := by
  rcases hf with rfl | rfl | ⟨v, rfl⟩ <;> simp

theorem isOverwrite_ite (p : Prop) [Decidable p] {f h : Option V → Option V}
    (hf : IsOverwrite f) (hh : IsOverwrite h) :
    IsOverwrite (fun x => if p then f x else h x) := by
  by_cases hp : p <;> simpa [hp]

theorem result_of_isReturned {r : Result V} (h : r.isReturned = true) :
    r = .returned r.state := by
  cases r <;> simp_all [Result.isReturned, Result.state]

theorem onlyOverwrites_congr {a b : Stmt V} (h : ∀ s, a s = b s) (hb : OnlyOverwrites b) :
    OnlyOverwrites a := by
  have : a = b := funext h
  rw [this]
  exact hb

theorem onlyOverwrites_returned : OnlyOverwrites (fun s : State V => Result.returned s) :=
  ⟨fun _ _ => id, true, fun _ _ => Or.inl rfl, fun _ => ⟨fun _ _ => rfl, rfl⟩⟩

theorem onlyOverwrites_panicked : OnlyOverwrites (fun s : State V => Result.panicked s) :=
  ⟨fun _ _ => id, false, fun _ _ => Or.inl rfl, fun _ => ⟨fun _ _ => rfl, rfl⟩⟩

theorem onlyOverwrites_Set (g : Instrument) (lvs : Option (List String)) (v : Option V) :
    OnlyOverwrites (GaugeVec.Set g lvs v) := by
  cases lvs with
  | none => exact onlyOverwrites_panicked
  | some l =>
    by_cases hlen : l.length = g.labelNames.length
    · cases v with
      | none =>
        refine ⟨fun g1 l1 x => if g1 = g ∧ l1 = l then some (x.getD 0) else x, false,
          fun g1 l1 => isOverwrite_ite _ (Or.inr (Or.inl rfl)) (Or.inl rfl), fun s => ?_⟩
        refine ⟨fun g1 l1 => ?_, ?_⟩
        · by_cases hk : g1 = g ∧ l1 = l
          · obtain ⟨rfl, rfl⟩ := hk
            simp [GaugeVec.Set, GaugeVec.stmt, hlen, Result.state,
              Registry.withLabelValues]
          · simp [GaugeVec.Set, GaugeVec.stmt, hlen, Result.state,
              Registry.withLabelValues, hk]
        · simp [GaugeVec.Set, GaugeVec.stmt, hlen, Result.isReturned]
      | some v =>
        refine ⟨fun g1 l1 x => if g1 = g ∧ l1 = l then some v else x, true,
          fun g1 l1 => isOverwrite_ite _ (Or.inr (Or.inr ⟨v, rfl⟩)) (Or.inl rfl),
          fun s => ?_⟩
        rw [gaugeVec_Set_some g l v s hlen]
        refine ⟨fun g1 l1 => ?_, rfl⟩
        by_cases hk : g1 = g ∧ l1 = l <;>
          simp [Result.state, State.update, Registry.apply, hk]
    · have : GaugeVec.Set g (some l) v = fun s => Result.panicked s := by
        funext s
        simp [GaugeVec.Set, GaugeVec.stmt, hlen]
      rw [this]
      exact onlyOverwrites_panicked

theorem onlyOverwrites_seq {a b : Stmt V} (ha : OnlyOverwrites a) (hb : OnlyOverwrites b) :
    OnlyOverwrites (fun s => match a s with
      | .returned s1 => b s1
      | r => r) := by
  obtain ⟨fa, ra, hfa, ha⟩ := ha
  obtain ⟨fb, rb, hfb, hb⟩ := hb
  cases ra with
  | true =>
    refine ⟨fun g l x => fb g l (fa g l x), rb,
      fun g l => isOverwrite_comp (hfa g l) (hfb g l), fun s => ?_⟩
    have h1 := (ha s).2
    have h2 := (ha s).1
    cases hr : a s with
    | returned s1 =>
      simp only [hr, Result.state] at h2
      simp only [hr]
      refine ⟨fun g l => ?_, (hb s1).2⟩
      rw [(hb s1).1 g l, h2 g l]
    | panicked s1 => simp [hr, Result.isReturned] at h1
    | fatal s1 => simp [hr, Result.isReturned] at h1
  | false =>
    refine ⟨fa, false, hfa, fun s => ?_⟩
    have h1 := (ha s).2
    have h2 := (ha s).1
    cases hr : a s with
    | returned s1 => simp [hr, Result.isReturned] at h1
    | panicked s1 => simpa [hr, Result.isReturned, Result.state] using h2
    | fatal s1 => simpa [hr, Result.isReturned, Result.state] using h2

theorem onlyOverwrites_block (sts : List (Stmt V)) (h : ∀ st ∈ sts, OnlyOverwrites st) :
    OnlyOverwrites (block sts) := by
  induction sts with
  | nil => exact onlyOverwrites_returned
  | cons a rest ih =>
    exact onlyOverwrites_seq (h a (List.mem_cons_self _ _))
      (ih (fun st hst => h st (List.mem_cons_of_mem _ hst)))

theorem onlyOverwrites_forRange {α : Type} (body : α → Stmt V) (xs : List α)
    (h : ∀ x ∈ xs, OnlyOverwrites (body x)) : OnlyOverwrites (forRange body xs) := by
  induction xs with
  | nil => exact onlyOverwrites_returned
  | cons x xs ih =>
    exact onlyOverwrites_seq (h x (List.mem_cons_self _ _))
      (ih (fun y hy => h y (List.mem_cons_of_mem _ hy)))

theorem onlyOverwrites_idem {st : Stmt V} (h : OnlyOverwrites st) (s : State V) :
    (st (st s).state).state.reg = (st s).state.reg ∧
      (st (st s).state).isReturned = (st s).isReturned := by
  obtain ⟨f, r, hf, hst⟩ := h
  refine ⟨?_, by rw [(hst _).2, (hst _).2]⟩
  funext g l
  rw [(hst _).1 g l, (hst s).1 g l, isOverwrite_idem (hf g l)]

theorem exportVolthaKPI_body_onlyOverwrites (e : Option (SliceData V))
    (h : ∀ d md, e = some d → d.Metadata = some md →
      md.Title = "Ethernet" ∨ md.Title = "PON" ∨ md.Title = "FEC_History") :
    OnlyOverwrites (exportVolthaKPI.body e) := by
  cases e with
  | none => exact onlyOverwrites_panicked
  | some d =>
    cases hmd : d.Metadata with
    | none =>
      have : exportVolthaKPI.body (some d) = fun s => Result.panicked s := by
        funext s
        simp [exportVolthaKPI.body, hmd]
      rw [this]
      exact onlyOverwrites_panicked
    | some md =>
      have hsix : OnlyOverwrites (block (V := V) [
          GaugeVec.Set volthaTxBytesTotal
            (md.Context.map fun c =>
              [md.LogicalDeviceID, md.SerialNumber, md.DeviceID,
                c.InterfaceID, c.PonID, c.PortNumber, md.Title])
            (d.Metrics.map fun m => m.TxBytes),
          GaugeVec.Set volthaRxBytesTotal
            (md.Context.map fun c =>
              [md.LogicalDeviceID, md.SerialNumber, md.DeviceID,
                c.InterfaceID, c.PonID, c.PortNumber, md.Title])
            (d.Metrics.map fun m => m.RxBytes),
          GaugeVec.Set volthaTxPacketsTotal
            (md.Context.map fun c =>
              [md.LogicalDeviceID, md.SerialNumber, md.DeviceID,
                c.InterfaceID, c.PonID, c.PortNumber, md.Title])
            (d.Metrics.map fun m => m.TxPackets),
          GaugeVec.Set volthaRxPacketsTotal
            (md.Context.map fun c =>
              [md.LogicalDeviceID, md.SerialNumber, md.DeviceID,
                c.InterfaceID, c.PonID, c.PortNumber, md.Title])
            (d.Metrics.map fun m => m.RxPackets),
          GaugeVec.Set volthaTxErrorPacketsTotal
            (md.Context.map fun c =>
              [md.LogicalDeviceID, md.SerialNumber, md.DeviceID,
                c.InterfaceID, c.PonID, c.PortNumber, md.Title])
            (d.Metrics.map fun m => m.TxErrorPackets),
          GaugeVec.Set volthaRxErrorPacketsTotal
            (md.Context.map fun c =>
              [md.LogicalDeviceID, md.SerialNumber, md.DeviceID,
                c.InterfaceID, c.PonID, c.PortNumber, md.Title])
            (d.Metrics.map fun m => m.RxErrorPackets)]) :=
        onlyOverwrites_block _ (fun st hst => by
          simp only [List.mem_cons, List.mem_singleton, List.not_mem_nil, or_false] at hst
          rcases hst with rfl | rfl | rfl | rfl | rfl | rfl <;>
            exact onlyOverwrites_Set _ _ _)
      refine onlyOverwrites_congr (fun s => ?_) hsix
      rcases h d md rfl hmd with ht | ht | ht <;>
        simp [exportVolthaKPI.body, hmd, ht]

theorem exportVolthaKPI_body_six_sets (s : State V) (d : SliceData V) (md : Metadata V)
    (c : Context) (m : Metrics V)
    (hd : d.Metadata = some md) (hc : md.Context = some c) (hm : d.Metrics = some m)
    (ht : md.Title = "Ethernet" ∨ md.Title = "PON" ∨ md.Title = "FEC_History") :
    exportVolthaKPI.body (some d) s = .returned
      ((((((s.update volthaTxBytesTotal [md.LogicalDeviceID, md.SerialNumber, md.DeviceID,
        c.InterfaceID, c.PonID, c.PortNumber, md.Title] (.set m.TxBytes)).update
      volthaRxBytesTotal [md.LogicalDeviceID, md.SerialNumber, md.DeviceID,
        c.InterfaceID, c.PonID, c.PortNumber, md.Title] (.set m.RxBytes)).update
      volthaTxPacketsTotal [md.LogicalDeviceID, md.SerialNumber, md.DeviceID,
        c.InterfaceID, c.PonID, c.PortNumber, md.Title] (.set m.TxPackets)).update
      volthaRxPacketsTotal [md.LogicalDeviceID, md.SerialNumber, md.DeviceID,
        c.InterfaceID, c.PonID, c.PortNumber, md.Title] (.set m.RxPackets)).update
      volthaTxErrorPacketsTotal [md.LogicalDeviceID, md.SerialNumber, md.DeviceID,
        c.InterfaceID, c.PonID, c.PortNumber, md.Title] (.set m.TxErrorPackets)).update
      volthaRxErrorPacketsTotal [md.LogicalDeviceID, md.SerialNumber, md.DeviceID,
        c.InterfaceID, c.PonID, c.PortNumber, md.Title] (.set m.RxErrorPackets)) := by
  rcases ht with ht | ht | ht <;>
    simp [exportVolthaKPI.body, hd, hc, hm, ht, block, gaugeVec_Set_some,
      Instrument.labelNames, volthaLabelNames]

theorem updates_nil (s : State V) : s.updates [] = s := rfl

theorem updates_cons (s : State V) (c : Call V) (cs : List (Call V)) :
    s.updates (c :: cs) = (s.update c.inst c.labels c.op).updates cs := rfl

theorem updates_append (s : State V) (as bs : List (Call V)) :
    s.updates (as ++ bs) = (s.updates as).updates bs := by
  simp [State.updates, List.foldl_append]

theorem updates_calls (s : State V) (cs : List (Call V)) :
    (s.updates cs).calls = s.calls ++ cs := by
  induction cs generalizing s with
  | nil => simp [updates_nil]
  | cons c cs ih => rw [updates_cons, ih]; simp [State.update]

theorem updates_logs (s : State V) (cs : List (Call V)) :
    (s.updates cs).logs = s.logs := by
  induction cs generalizing s with
  | nil => simp [updates_nil]
  | cons c cs ih => rw [updates_cons, ih]; simp [State.update]

theorem exportOnosKPI_cons (dev : String) (p : OnosPort V)
    (ports : List (Option (OnosPort V))) (s : State V) :
    exportOnosKPI ⟨dev, some p :: ports⟩ s =
      exportOnosKPI ⟨dev, ports⟩ (s.updates ((
        fun p =>
          [⟨onosTxBytesTotal, [dev, p.PortID], .set p.TxBytes⟩,
           ⟨onosRxBytesTotal, [dev, p.PortID], .set p.RxBytes⟩,
           ⟨onosTxPacketsTotal, [dev, p.PortID], .set p.TxPackets⟩,
           ⟨onosRxPacketsTotal, [dev, p.PortID], .set p.RxPackets⟩,
           ⟨onosTxDropPacketsTotal, [dev, p.PortID], .set p.TxPacketsDrop⟩,
           ⟨onosRxDropPacketsTotal, [dev, p.PortID], .set p.RxPacketsDrop⟩]) p)) := by
  simp [exportOnosKPI, forRange, block, gaugeVec_Set_some, Instrument.labelNames,
    onosLabelNames, State.updates]

theorem exportOnosKPI_all (dev : String) (ports : List (OnosPort V)) (s : State V) :
    exportOnosKPI ⟨dev, ports.map some⟩ s =
      .returned (s.updates (ports.flatMap (
        fun p =>
          [⟨onosTxBytesTotal, [dev, p.PortID], .set p.TxBytes⟩,
           ⟨onosRxBytesTotal, [dev, p.PortID], .set p.RxBytes⟩,
           ⟨onosTxPacketsTotal, [dev, p.PortID], .set p.TxPackets⟩,
           ⟨onosRxPacketsTotal, [dev, p.PortID], .set p.RxPackets⟩,
           ⟨onosTxDropPacketsTotal, [dev, p.PortID], .set p.TxPacketsDrop⟩,
           ⟨onosRxDropPacketsTotal, [dev, p.PortID], .set p.RxPacketsDrop⟩]))) := by
  induction ports generalizing s with
  | nil => simp [exportOnosKPI, forRange, updates_nil]
  | cons p ps ih =>
    rw [List.map_cons, exportOnosKPI_cons, ih, List.flatMap_cons, updates_append]

theorem block_gauge_sets (bs : List (Instrument × V)) (s : State V) :
    block (bs.map fun b => Gauge.Set b.1 b.2) s =
      .returned (s.updates (bs.map fun b => ⟨b.1, [], .set b.2⟩)) := by
  induction bs generalizing s with
  | nil => rfl
  | cons b bs ih =>
    simp only [List.map_cons, block, Gauge.Set, updates_cons]
    exact ih _

theorem exportOnosAaaKPI_eq (undeclared : String → V) (kpi : OnosAaaKPI V) (s : State V) :
    exportOnosAaaKPI undeclared kpi s =
      .returned (s.updates (exportOnosAaaKPI.sets.map fun b =>
        ⟨b.1, [], .set ((kpi.field? b.2).getD (undeclared b.2))⟩)) := by
  have h := block_gauge_sets (exportOnosAaaKPI.sets.map fun b =>
    (b.1, (kpi.field? b.2).getD (undeclared b.2))) s
  simp only [List.map_map] at h
  exact h

theorem neverFatal_seq {a b : Stmt V} (ha : NeverFatal a) (hb : NeverFatal b) :
    NeverFatal (fun s => match a s with
      | .returned s1 => b s1
      | r => r) := by
  intro s
  have h1 := ha s
  cases hr : a s with
  | returned s1 => simpa [hr] using hb s1
  | panicked s1 => simp [hr, Result.isFatal]
  | fatal s1 => simp [hr, Result.isFatal] at h1

theorem neverFatal_block (sts : List (Stmt V)) (h : ∀ st ∈ sts, NeverFatal st) :
    NeverFatal (block sts) := by
  induction sts with
  | nil => intro s; rfl
  | cons a rest ih =>
    exact neverFatal_seq (h a (List.mem_cons_self _ _))
      (ih (fun st hst => h st (List.mem_cons_of_mem _ hst)))

theorem neverFatal_forRange {α : Type} (body : α → Stmt V) (xs : List α)
    (h : ∀ x ∈ xs, NeverFatal (body x)) : NeverFatal (forRange body xs) := by
  induction xs with
  | nil => intro s; rfl
  | cons x xs ih =>
    exact neverFatal_seq (h x (List.mem_cons_self _ _))
      (ih (fun y hy => h y (List.mem_cons_of_mem _ hy)))

theorem neverFatal_stmt (g : Instrument) (lvs : Option (List String)) (o : Option (Op V)) :
    NeverFatal (GaugeVec.stmt g lvs o) := by
  intro s
  cases lvs with
  | none => rfl
  | some l =>
    by_cases hlen : l.length = g.labelNames.length <;> cases o <;>
      simp [GaugeVec.stmt, hlen, Result.isFatal]

theorem neverFatal_exportVolthaKPI (kpi : VolthaKPI V) : NeverFatal (exportVolthaKPI kpi) := by
  refine neverFatal_forRange _ _ (fun e _ s => ?_)
  have hb : ∀ (sts : List (Stmt V)) (st : State V),
      (∀ x ∈ sts, ∃ g lvs o, x = GaugeVec.stmt g lvs o) → (block sts st).isFatal = false :=
    fun sts st hs => neverFatal_block sts (fun x hx => by
      obtain ⟨g, lvs, o, rfl⟩ := hs x hx
      exact neverFatal_stmt g lvs o) st
  cases e with
  | none => rfl
  | some d =>
    cases hmd : d.Metadata with
    | none => simp [exportVolthaKPI.body, hmd, Result.isFatal]
    | some md =>
      simp only [exportVolthaKPI.body, hmd]
      split_ifs
      · exact hb _ _ (by simp [GaugeVec.Set])
      · cases hc : md.Context with
        | none => rfl
        | some c =>
          simp only
          split_ifs
          · exact hb _ _ (by simp [GaugeVec.Add])
          · exact hb _ _ (by simp [GaugeVec.Add])
      · rfl
      · exact hb _ _ (by simp [GaugeVec.Set])
      · rfl
      · rfl

theorem forRange_append {α : Type} (body : α → Stmt V) (xs ys : List α) (s : State V) :
    forRange body (xs ++ ys) s =
      match forRange body xs s with
      | .returned s1 => forRange body ys s1
      | r => r := by
  induction xs generalizing s with
  | nil => rfl
  | cons x xs ih =>
    simp only [List.cons_append, forRange]
    cases body x s with
    | returned s1 => exact ih s1
    | panicked s1 => rfl
    | fatal s1 => rfl

theorem confined_returned (P : Call V → Prop) :
    Confined P (fun s : State V => Result.returned s) :=
  fun _ => ⟨⟨[], by simp [Result.state], by simp⟩, fun _ _ _ => rfl⟩

theorem confined_panicked (P : Call V → Prop) :
    Confined P (fun s : State V => Result.panicked s) :=
  fun _ => ⟨⟨[], by simp [Result.state], by simp⟩, fun _ _ _ => rfl⟩

theorem confined_congr {P : Call V → Prop} {a b : Stmt V} (h : ∀ s, a s = b s)
    (hb : Confined P b) : Confined P a := by
  have : a = b := funext h
  rw [this]
  exact hb

theorem confined_seq {P : Call V → Prop} {a b : Stmt V} (ha : Confined P a)
    (hb : Confined P b) :
    Confined P (fun s => match a s with
      | .returned s1 => b s1
      | r => r) := by
  intro s
  obtain ⟨⟨cs1, hc1, hp1⟩, hr1⟩ := ha s
  simp only
  cases hr : a s with
  | returned s1 =>
    simp only [hr, Result.state] at hc1 hr1
    obtain ⟨⟨cs2, hc2, hp2⟩, hr2⟩ := hb s1
    refine ⟨⟨cs1 ++ cs2, ?_, ?_⟩, fun g l hgl => ?_⟩
    · simp only [hc2, hc1, List.append_assoc]
    · intro c hc
      rcases List.mem_append.mp hc with h | h
      · exact hp1 c h
      · exact hp2 c h
    · simp only [hr2 g l hgl, hr1 g l hgl]
  | panicked s1 =>
    simp only [hr, Result.state] at hc1 hr1
    exact ⟨⟨cs1, hc1, hp1⟩, hr1⟩
  | fatal s1 =>
    simp only [hr, Result.state] at hc1 hr1
    exact ⟨⟨cs1, hc1, hp1⟩, hr1⟩

theorem confined_block {P : Call V → Prop} (sts : List (Stmt V))
    (h : ∀ st ∈ sts, Confined P st) : Confined P (block sts) := by
  induction sts with
  | nil => exact confined_returned P
  | cons a rest ih =>
    exact confined_seq (h a (List.mem_cons_self _ _))
      (ih (fun st hst => h st (List.mem_cons_of_mem _ hst)))

theorem confined_forRange {P : Call V → Prop} {α : Type} (body : α → Stmt V) (xs : List α)
    (h : ∀ x ∈ xs, Confined P (body x)) : Confined P (forRange body xs) := by
  induction xs with
  | nil => exact confined_returned P
  | cons x xs ih =>
    exact confined_seq (h x (List.mem_cons_self _ _))
      (ih (fun y hy => h y (List.mem_cons_of_mem _ hy)))

theorem confined_stmt {P : Call V → Prop} (g : Instrument) (lvs : Option (List String))
    (o : Option (Op V))
    (h1 : ∀ l o1, lvs = some l → o = some o1 → P ⟨g, l, o1⟩)
    (h2 : ∀ l, lvs = some l → ∃ o1, P ⟨g, l, o1⟩) :
    Confined P (GaugeVec.stmt g lvs o) := by
  intro s
  cases lvs with
  | none => exact confined_panicked P s
  | some l =>
    have hkey : ∀ g1 l1, (∀ o1, ¬ P ⟨g1, l1, o1⟩) → ¬ (g1 = g ∧ l1 = l) := by
      rintro g1 l1 hno ⟨rfl, rfl⟩
      obtain ⟨o1, ho1⟩ := h2 l1 rfl
      exact hno o1 ho1
    by_cases hlen : l.length = g.labelNames.length
    · cases o with
      | none =>
        refine ⟨⟨[], by simp [GaugeVec.stmt, hlen, Result.state], by simp⟩,
          fun g1 l1 hno => ?_⟩
        simp [GaugeVec.stmt, hlen, Result.state, Registry.withLabelValues,
          hkey g1 l1 hno]
      | some o1 =>
        rw [gaugeVec_stmt_some g l o1 s hlen]
        refine ⟨⟨[⟨g, l, o1⟩], by simp [Result.state, State.update], ?_⟩,
          fun g1 l1 hno => ?_⟩
        · intro c hc
          rw [List.mem_singleton] at hc
          subst hc
          exact h1 l o1 rfl rfl
        · simp [Result.state, State.update, Registry.apply, hkey g1 l1 hno]
    · have : GaugeVec.stmt g (some l) o s = Result.panicked s := by
        simp [GaugeVec.stmt, hlen]
      rw [this]
      exact confined_panicked P s

theorem confined_Set {P : Call V → Prop} (g : Instrument) (lvs : Option (List String))
    (v : Option V) (h : ∀ l x, lvs = some l → P ⟨g, l, .set x⟩) :
    Confined P (GaugeVec.Set g lvs v) := by
  refine confined_stmt g lvs _ (fun l o1 hl ho => ?_) (fun l hl => ⟨.set 0, h l 0 hl⟩)
  cases v with
  | none => simp at ho
  | some x =>
    simp only [Option.map_some', Option.some.injEq] at ho
    subst ho
    exact h l x hl

theorem confined_Add {P : Call V → Prop} (g : Instrument) (lvs : Option (List String))
    (v : Option V) (h : ∀ l x, lvs = some l → P ⟨g, l, .add x⟩) :
    Confined P (GaugeVec.Add g lvs v) := by
  refine confined_stmt g lvs _ (fun l o1 hl ho => ?_) (fun l hl => ⟨.add 0, h l 0 hl⟩)
  cases v with
  | none => simp at ho
  | some x =>
    simp only [Option.map_some', Option.some.injEq] at ho
    subst ho
    exact h l x hl

theorem confined_gauge_Set {P : Call V → Prop} (g : Instrument) (v : V)
    (h : P ⟨g, [], .set v⟩) : Confined P (Gauge.Set g v) := by
  intro s
  refine ⟨⟨[⟨g, [], .set v⟩], by simp [Gauge.Set, Result.state, State.update], ?_⟩,
    fun g1 l1 hno => ?_⟩
  · intro c hc
    rw [List.mem_singleton] at hc
    subst hc
    exact h
  · have hk : ¬ (g1 = g ∧ l1 = []) := by
      rintro ⟨rfl, rfl⟩
      exact hno _ h
    simp [Gauge.Set, Result.state, State.update, Registry.apply, hk]

theorem exportVolthaKPI_body_confined (P : Call V → Prop) (e : Option (SliceData V))
    (hset : ∀ d md c g x, e = some d → d.Metadata = some md → md.Context = some c →
      (md.Title = "Ethernet" ∨ md.Title = "PON" ∨ md.Title = "FEC_History") →
      g ∈ [volthaTxBytesTotal, volthaRxBytesTotal, volthaTxPacketsTotal,
        volthaRxPacketsTotal, volthaTxErrorPacketsTotal, volthaRxErrorPacketsTotal] →
      P ⟨g, [md.LogicalDeviceID, md.SerialNumber, md.DeviceID,
        c.InterfaceID, c.PonID, c.PortNumber, md.Title], .set x⟩)
    (hadd : ∀ d md g x, e = some d → d.Metadata = some md →
      md.Title = "Ethernet_Bridge_Port_History" →
      g ∈ [volthaTxBytesTotal, volthaRxBytesTotal, volthaTxPacketsTotal,
        volthaRxPacketsTotal, volthaTxErrorPacketsTotal, volthaRxErrorPacketsTotal] →
      P ⟨g, [md.LogicalDeviceID, md.SerialNumber, md.DeviceID, "NA", "NA", "NA", md.Title], .add x⟩) :
    Confined P (exportVolthaKPI.body e) := by
  cases e with
  | none => exact confined_panicked P
  | some d =>
    cases hmd : d.Metadata with
    | none =>
      exact confined_congr (fun s => by simp [exportVolthaKPI.body, hmd])
        (confined_panicked P)
    | some md =>
      have hsix : (md.Title = "Ethernet" ∨ md.Title = "PON" ∨ md.Title = "FEC_History") →
          Confined P (block (V := V) [
      GaugeVec.Set volthaTxBytesTotal
        (md.Context.map fun c =>
          [md.LogicalDeviceID, md.SerialNumber, md.DeviceID,
            c.InterfaceID, c.PonID, c.PortNumber, md.Title])
        (d.Metrics.map fun m => m.TxBytes),
      GaugeVec.Set volthaRxBytesTotal
        (md.Context.map fun c =>
          [md.LogicalDeviceID, md.SerialNumber, md.DeviceID,
            c.InterfaceID, c.PonID, c.PortNumber, md.Title])
        (d.Metrics.map fun m => m.RxBytes),
      GaugeVec.Set volthaTxPacketsTotal
        (md.Context.map fun c =>
          [md.LogicalDeviceID, md.SerialNumber, md.DeviceID,
            c.InterfaceID, c.PonID, c.PortNumber, md.Title])
        (d.Metrics.map fun m => m.TxPackets),
      GaugeVec.Set volthaRxPacketsTotal
        (md.Context.map fun c =>
          [md.LogicalDeviceID, md.SerialNumber, md.DeviceID,
            c.InterfaceID, c.PonID, c.PortNumber, md.Title])
        (d.Metrics.map fun m => m.RxPackets),
      GaugeVec.Set volthaTxErrorPacketsTotal
        (md.Context.map fun c =>
          [md.LogicalDeviceID, md.SerialNumber, md.DeviceID,
            c.InterfaceID, c.PonID, c.PortNumber, md.Title])
        (d.Metrics.map fun m => m.TxErrorPackets),
      GaugeVec.Set volthaRxErrorPacketsTotal
        (md.Context.map fun c =>
          [md.LogicalDeviceID, md.SerialNumber, md.DeviceID,
            c.InterfaceID, c.PonID, c.PortNumber, md.Title])
        (d.Metrics.map fun m => m.RxErrorPackets)]) := by
        intro ht
        refine confined_block _ (fun st hst => ?_)
        simp only [List.mem_cons, List.mem_singleton, List.not_mem_nil, or_false] at hst
        rcases hst with rfl | rfl | rfl | rfl | rfl | rfl <;>
          refine confined_Set _ _ _ (fun l x hl => ?_) <;>
          cases hc : md.Context <;> simp [hc] at hl <;> subst hl <;>
          exact hset d md _ _ x rfl hmd hc ht (by simp)
      have htx : md.Title = "Ethernet_Bridge_Port_History" →
          Confined P (block (V := V) [
      GaugeVec.Add volthaTxPacketsTotal
        (some [md.LogicalDeviceID, md.SerialNumber, md.DeviceID, "NA", "NA", "NA", md.Title])
        (d.Metrics.map fun m => m.Packets),
      GaugeVec.Add volthaTxBytesTotal
        (some [md.LogicalDeviceID, md.SerialNumber, md.DeviceID, "NA", "NA", "NA", md.Title])
        (d.Metrics.map fun m => m.Octets)]) := by
        intro ht
        refine confined_block _ (fun st hst => ?_)
        simp only [List.mem_cons, List.mem_singleton, List.not_mem_nil, or_false] at hst
        rcases hst with rfl | rfl <;>
          refine confined_Add _ _ _ (fun l x hl => ?_) <;>
          simp at hl <;> subst hl <;>
          exact hadd d md _ x rfl hmd ht (by simp)
      have hrx : md.Title = "Ethernet_Bridge_Port_History" →
          Confined P (block (V := V) [
      GaugeVec.Add volthaRxPacketsTotal
        (some [md.LogicalDeviceID, md.SerialNumber, md.DeviceID, "NA", "NA", "NA", md.Title])
        (d.Metrics.map fun m => m.Packets),
      GaugeVec.Add volthaRxBytesTotal
        (some [md.LogicalDeviceID, md.SerialNumber, md.DeviceID, "NA", "NA", "NA", md.Title])
        (d.Metrics.map fun m => m.Octets)]) := by
        intro ht
        refine confined_block _ (fun st hst => ?_)
        simp only [List.mem_cons, List.mem_singleton, List.not_mem_nil, or_false] at hst
        rcases hst with rfl | rfl <;>
          refine confined_Add _ _ _ (fun l x hl => ?_) <;>
          simp at hl <;> subst hl <;>
          exact hadd d md _ x rfl hmd ht (by simp)
      by_cases h1 : md.Title = "Ethernet" ∨ md.Title = "PON"
      · exact confined_congr (fun s => by simp [exportVolthaKPI.body, hmd, h1])
          (hsix (by rcases h1 with h | h <;> simp [h]))
      · by_cases h2 : md.Title = "Ethernet_Bridge_Port_History"
        · cases hc : md.Context with
          | none =>
            exact confined_congr (fun s => by simp [exportVolthaKPI.body, hmd, h2, hc])
              (confined_panicked P)
          | some c =>
            by_cases hu : c.Upstream = "True"
            · exact confined_congr
                (fun s => by simp [exportVolthaKPI.body, hmd, h2, hc, hu]) (htx h2)
            · exact confined_congr
                (fun s => by simp [exportVolthaKPI.body, hmd, h2, hc, hu]) (hrx h2)
        · by_cases h3 : md.Title = "FEC_History"
          · exact confined_congr (fun s => by simp [exportVolthaKPI.body, hmd, h3])
              (hsix (Or.inr (Or.inr h3)))
          · exact confined_congr
              (fun s => by
                by_cases h4 : md.Title = "Ethernet_UNI_History" <;>
                  by_cases h5 : md.Title = "voltha.internal" <;>
                  simp [exportVolthaKPI.body, hmd, h1, h2, h3, h4, h5])
              (confined_returned P)

theorem exportVolthaKPI_confined (P : Call V → Prop) (kpi : VolthaKPI V)
    (h : ∀ e ∈ kpi.SliceDatas, Confined P (exportVolthaKPI.body e)) :
    Confined P (exportVolthaKPI kpi) :=
  confined_forRange _ _ h

theorem exportVolthaKPI_body_isReturned (e : Option (SliceData V)) (s : State V) :
    (exportVolthaKPI.body e s).isReturned = true ↔
      ∃ d md, e = some d ∧ d.Metadata = some md ∧
        ((md.Title = "Ethernet" ∨ md.Title = "PON" ∨ md.Title = "FEC_History" ∨
            md.Title = "Ethernet_Bridge_Port_History") →
          md.Context.isSome = true ∧ d.Metrics.isSome = true) := by
  cases e with
  | none => simp [exportVolthaKPI.body, Result.isReturned]
  | some d =>
    cases hmd : d.Metadata with
    | none => simp [exportVolthaKPI.body, hmd, Result.isReturned]
    | some md =>
      by_cases h1 : md.Title = "Ethernet"
      · cases hc : md.Context <;> cases hm : d.Metrics <;>
          simp [exportVolthaKPI.body, hmd, h1, hc, hm, Result.isReturned, block,
            GaugeVec.Set, GaugeVec.stmt, Instrument.labelNames, volthaLabelNames]
      · by_cases h2 : md.Title = "PON"
        · cases hc : md.Context <;> cases hm : d.Metrics <;>
            simp [exportVolthaKPI.body, hmd, h2, hc, hm, Result.isReturned, block,
              GaugeVec.Set, GaugeVec.stmt, Instrument.labelNames, volthaLabelNames]
        · by_cases h3 : md.Title = "FEC_History"
          · cases hc : md.Context <;> cases hm : d.Metrics <;>
              simp [exportVolthaKPI.body, hmd, h3, hc, hm, Result.isReturned, block,
                GaugeVec.Set, GaugeVec.stmt, Instrument.labelNames, volthaLabelNames]
          · by_cases h4 : md.Title = "Ethernet_Bridge_Port_History"
            · cases hc : md.Context with
              | none => simp [exportVolthaKPI.body, hmd, h4, hc, Result.isReturned]
              | some c =>
                by_cases hu : c.Upstream = "True" <;> cases hm : d.Metrics <;>
                  simp [exportVolthaKPI.body, hmd, h4, hc, hm, hu, Result.isReturned, block,
                    GaugeVec.Add, GaugeVec.stmt, Instrument.labelNames, volthaLabelNames]
            · by_cases h5 : md.Title = "Ethernet_UNI_History" <;>
                by_cases h6 : md.Title = "voltha.internal" <;>
                simp [exportVolthaKPI.body, hmd, h1, h2, h3, h4, h5, h6, Result.isReturned]

theorem forRange_isReturned {α : Type} (body : α → Stmt V) (ok : α → Prop)
    (h : ∀ x s, (body x s).isReturned = true ↔ ok x) (xs : List α) (s : State V) :
    (forRange body xs s).isReturned = true ↔ ∀ x ∈ xs, ok x := by
  induction xs generalizing s with
  | nil => simp [forRange, Result.isReturned]
  | cons x xs ih =>
    have hx := h x s
    simp only [forRange, List.mem_cons, forall_eq_or_imp]
    cases hr : body x s with
    | returned s1 =>
      rw [hr] at hx
      simp only [ih s1]
      exact ⟨fun hall => ⟨hx.mp rfl, hall⟩, fun hall => hall.2⟩
    | panicked s1 =>
      rw [hr] at hx
      simp only [Result.isReturned] at hx ⊢
      constructor
      · intro hf; exact absurd hf (by simp)
      · intro hall; exact absurd (hx.mpr hall.1) (by simp)
    | fatal s1 =>
      rw [hr] at hx
      simp only [Result.isReturned] at hx ⊢
      constructor
      · intro hf; exact absurd hf (by simp)
      · intro hall; exact absurd (hx.mpr hall.1) (by simp)

theorem exportVolthaKPI_body_nil (e : Option (SliceData V)) (s : State V)
    (h : e = none ∨ ∃ d, e = some d ∧ d.Metadata = none) :
    exportVolthaKPI.body e s = .panicked s := by
  rcases h with rfl | ⟨d, rfl, hd⟩
  · rfl
  · simp [exportVolthaKPI.body, hd]

theorem exportVolthaKPI_confined_six (kpi : VolthaKPI V) :
    Confined (fun c : Call V => c.inst ∈ [volthaTxBytesTotal, volthaRxBytesTotal, volthaTxPacketsTotal,
        volthaRxPacketsTotal, volthaTxErrorPacketsTotal, volthaRxErrorPacketsTotal])
      (exportVolthaKPI kpi) :=
  confined_forRange _ _ (fun e _ => exportVolthaKPI_body_confined _ e
    (fun _ _ _ _ _ _ _ _ _ hg => hg) (fun _ _ _ _ _ _ _ hg => hg))

theorem exportOnosKPI_confined_six (kpi : OnosKPI V) :
    Confined (fun c : Call V => c.inst ∈ [onosTxBytesTotal, onosRxBytesTotal, onosTxPacketsTotal,
        onosRxPacketsTotal, onosTxDropPacketsTotal, onosRxDropPacketsTotal])
      (exportOnosKPI kpi) := by
  refine confined_forRange _ _ (fun e _ => confined_block _ (fun st hst => ?_))
  simp only [List.mem_cons, List.mem_singleton, List.not_mem_nil, or_false] at hst
  rcases hst with rfl | rfl | rfl | rfl | rfl | rfl <;>
    exact confined_Set _ _ _ (fun _ _ _ => by simp)

theorem exportOnosAaaKPI_confined (undeclared : String → V) (kpi : OnosAaaKPI V) :
    Confined (fun c : Call V => c.inst ∈ exportOnosAaaKPI.sets.map Prod.fst)
      (exportOnosAaaKPI undeclared kpi) := by
  refine confined_block _ (fun st hst => ?_)
  obtain ⟨b, hb, rfl⟩ := List.mem_map.mp hst
  exact confined_gauge_Set _ _ (List.mem_map_of_mem Prod.fst hb)

theorem exportVolthaKPI_body_confined_ne (e : Option (SliceData V))
    (ld sn dev intf pon port t : String)
    (ht : t = "Ethernet" ∨ t = "PON" ∨ t = "FEC_History")
    (hne : entryLabels e ≠ some [ld, sn, dev, intf, pon, port, t]) :
    Confined (fun c : Call V => c.labels ≠ [ld, sn, dev, intf, pon, port, t])
      (exportVolthaKPI.body e) := by
  refine exportVolthaKPI_body_confined _ e ?_ ?_
  · intro d md c g x he hmd hc _ _ heq
    apply hne
    subst he
    simp only [entryLabels, hmd, hc, Option.map_some']
    exact congrArg some heq
  · intro d md g x he hmd htitle _ heq
    simp only [List.cons.injEq, and_true] at heq
    have : t = "Ethernet_Bridge_Port_History" := by rw [← heq.2.2.2.2.2.2, htitle]
    rcases ht with h | h | h <;> rw [h] at this <;> exact absurd this (by decide)

theorem exportVolthaKPI_body_confined_kind (e : Option (SliceData V)) :
    Confined (fun c : Call V =>
        (∃ v a b d i p q t, c.op = .set v ∧ c.labels = [a, b, d, i, p, q, t] ∧
          (t = "Ethernet" ∨ t = "PON" ∨ t = "FEC_History")) ∨
        (∃ v a b d, c.op = .add v ∧
          c.labels = [a, b, d, "NA", "NA", "NA", "Ethernet_Bridge_Port_History"]))
      (exportVolthaKPI.body e) := by
  refine exportVolthaKPI_body_confined _ e ?_ ?_
  · intro d md c g x _ _ _ ht _
    exact Or.inl ⟨x, _, _, _, _, _, _, _, rfl, rfl, ht⟩
  · intro d md g x _ _ ht _
    exact Or.inr ⟨x, _, _, _, rfl, by rw [ht]⟩

theorem isPanicked_of_not_returned {r : Result V} (hf : r.isFatal = false) :
    r.isReturned = false ↔ r.isPanicked = true := by
  cases r <;> simp_all [Result.isFatal, Result.isReturned, Result.isPanicked]

end lemmas

/-! ## The claims -/

section claims
variable {V : Type} [Zero V] [Add V]

/-- C1. A slice entry of title "Ethernet" or "PON" (with its metadata, context and
metrics) makes `exportVolthaKPI` perform exactly six instrument updates, all `Set`, in
source order: the six voltha instruments at the label tuple (logical device, serial
number, device, interface, PON, port, title) of the entry, with the values tx_bytes,
rx_bytes, tx_packets, rx_packets, tx_error_packets, rx_error_packets. Whatever the
registry held before, these six series then hold those values and every other series is
unchanged; the export then continues with the remaining entries. -/
theorem exportVolthaKPI_ethernet_pon_sets (s : State V) (ty : String) (ts : V)
    (rest : List (Option (SliceData V))) (ld title sn dev : String) (mts : V)
    (c : Context) (m : Metrics V) (ht : title = "Ethernet" ∨ title = "PON") :
    ∃ s1 : State V,
      exportVolthaKPI ⟨ty, ts, some ⟨some m, some ⟨ld, title, sn, mts, dev, some c⟩⟩ :: rest⟩ s =
        exportVolthaKPI ⟨ty, ts, rest⟩ s1 ∧
      exportVolthaKPI ⟨ty, ts, [some ⟨some m, some ⟨ld, title, sn, mts, dev, some c⟩⟩]⟩ s =
        .returned s1 ∧
      s1.calls = s.calls ++
        [⟨volthaTxBytesTotal, [ld, sn, dev, c.InterfaceID, c.PonID, c.PortNumber, title], .set m.TxBytes⟩,
          ⟨volthaRxBytesTotal, [ld, sn, dev, c.InterfaceID, c.PonID, c.PortNumber, title], .set m.RxBytes⟩,
          ⟨volthaTxPacketsTotal, [ld, sn, dev, c.InterfaceID, c.PonID, c.PortNumber, title], .set m.TxPackets⟩,
          ⟨volthaRxPacketsTotal, [ld, sn, dev, c.InterfaceID, c.PonID, c.PortNumber, title], .set m.RxPackets⟩,
          ⟨volthaTxErrorPacketsTotal, [ld, sn, dev, c.InterfaceID, c.PonID, c.PortNumber, title], .set m.TxErrorPackets⟩,
          ⟨volthaRxErrorPacketsTotal, [ld, sn, dev, c.InterfaceID, c.PonID, c.PortNumber, title], .set m.RxErrorPackets⟩] ∧
      s1.logs = s.logs ∧
      (∀ g l, s1.reg g l =
        if l = [ld, sn, dev, c.InterfaceID, c.PonID, c.PortNumber, title] then
          match g with
          | volthaTxBytesTotal => some m.TxBytes
          | volthaRxBytesTotal => some m.RxBytes
          | volthaTxPacketsTotal => some m.TxPackets
          | volthaRxPacketsTotal => some m.RxPackets
          | volthaTxErrorPacketsTotal => some m.TxErrorPackets
          | volthaRxErrorPacketsTotal => some m.RxErrorPackets
          | _ => s.reg g l
        else s.reg g l) ∧
      [volthaTxBytesTotal, volthaRxBytesTotal, volthaTxPacketsTotal, volthaRxPacketsTotal,
        volthaTxErrorPacketsTotal, volthaRxErrorPacketsTotal].map Instrument.name =
        ["voltha_tx_bytes_total", "voltha_rx_bytes_total", "voltha_tx_packets_total",
          "voltha_rx_packets_total", "voltha_tx_error_packets_total",
          "voltha_rx_error_packets_total"] ∧
      (∀ g ∈ [volthaTxBytesTotal, volthaRxBytesTotal, volthaTxPacketsTotal,
          volthaRxPacketsTotal, volthaTxErrorPacketsTotal, volthaRxErrorPacketsTotal],
        g.labelNames = ["logical_device_id", "serial_number", "device_id", "interface_id",
          "pon_id", "port_number", "title"]) := by
  have hb := exportVolthaKPI_body_six_sets s ⟨some m, some ⟨ld, title, sn, mts, dev, some c⟩⟩
    ⟨ld, title, sn, mts, dev, some c⟩ c m rfl rfl rfl
    (by rcases ht with h | h <;> simp [h])
  refine ⟨_, exportVolthaKPI_cons ty ts _ rest s _ hb, ?_, ?_, ?_, ?_, rfl, by decide⟩
  · rw [exportVolthaKPI, forRange_singleton, hb]
  · simp [State.update]
  · simp [State.update]
  · intro g l
    by_cases hl : l = [ld, sn, dev, c.InterfaceID, c.PonID, c.PortNumber, title]
    · cases g <;> simp [State.update, Registry.apply, hl]
    · cases g <;> simp [State.update, Registry.apply, hl]

/-- C2. A slice entry of title "Ethernet_Bridge_Port_History" (with its metadata, context
and metrics) makes `exportVolthaKPI` perform exactly two instrument updates, both `Add`,
at the label tuple (logical device, serial number, device, "NA", "NA", "NA", title):
packets onto voltha_tx_packets_total and octets onto voltha_tx_bytes_total when the
upstream string is exactly "True", packets onto voltha_rx_packets_total and octets onto
voltha_rx_bytes_total for any other upstream string. Each of the two series then holds
its prior value (0 for a series not yet created) plus the added amount, and every other
series, the other direction and the error-packet instruments included, is unchanged. The
interface, PON and port of the entry appear nowhere in the updates. -/
theorem exportVolthaKPI_bridge_port_history_adds (s : State V) (ty : String) (ts : V)
    (rest : List (Option (SliceData V))) (ld sn dev : String) (mts : V)
    (c : Context) (m : Metrics V) :
    ∃ s1 : State V,
      exportVolthaKPI ⟨ty, ts, some ⟨some m, some ⟨ld, "Ethernet_Bridge_Port_History", sn, mts, dev, some c⟩⟩ :: rest⟩ s =
        exportVolthaKPI ⟨ty, ts, rest⟩ s1 ∧
      exportVolthaKPI ⟨ty, ts, [some ⟨some m, some ⟨ld, "Ethernet_Bridge_Port_History", sn, mts, dev, some c⟩⟩]⟩ s =
        .returned s1 ∧
      s1.calls = s.calls ++
        (if c.Upstream = "True" then
          [⟨volthaTxPacketsTotal, [ld, sn, dev, "NA", "NA", "NA", "Ethernet_Bridge_Port_History"], .add m.Packets⟩,
           ⟨volthaTxBytesTotal, [ld, sn, dev, "NA", "NA", "NA", "Ethernet_Bridge_Port_History"], .add m.Octets⟩]
        else
          [⟨volthaRxPacketsTotal, [ld, sn, dev, "NA", "NA", "NA", "Ethernet_Bridge_Port_History"], .add m.Packets⟩,
           ⟨volthaRxBytesTotal, [ld, sn, dev, "NA", "NA", "NA", "Ethernet_Bridge_Port_History"], .add m.Octets⟩]) ∧
      s1.logs = s.logs ∧
      (∀ g l, s1.reg g l =
        if l = [ld, sn, dev, "NA", "NA", "NA", "Ethernet_Bridge_Port_History"] then
          if c.Upstream = "True" then
            match g with
            | volthaTxPacketsTotal => some ((s.reg g l).getD 0 + m.Packets)
            | volthaTxBytesTotal => some ((s.reg g l).getD 0 + m.Octets)
            | _ => s.reg g l
          else
            match g with
            | volthaRxPacketsTotal => some ((s.reg g l).getD 0 + m.Packets)
            | volthaRxBytesTotal => some ((s.reg g l).getD 0 + m.Octets)
            | _ => s.reg g l
        else s.reg g l) := by
  have hb : ∃ s1 : State V, exportVolthaKPI.body (some ⟨some m, some ⟨ld, "Ethernet_Bridge_Port_History", sn, mts, dev, some c⟩⟩) s = .returned s1 ∧
      s1 = if c.Upstream = "True" then
          (s.update volthaTxPacketsTotal [ld, sn, dev, "NA", "NA", "NA", "Ethernet_Bridge_Port_History"] (.add m.Packets)).update
            volthaTxBytesTotal [ld, sn, dev, "NA", "NA", "NA", "Ethernet_Bridge_Port_History"] (.add m.Octets)
        else
          (s.update volthaRxPacketsTotal [ld, sn, dev, "NA", "NA", "NA", "Ethernet_Bridge_Port_History"] (.add m.Packets)).update
            volthaRxBytesTotal [ld, sn, dev, "NA", "NA", "NA", "Ethernet_Bridge_Port_History"] (.add m.Octets) := by
    refine ⟨_, ?_, rfl⟩
    by_cases hu : c.Upstream = "True" <;>
      simp [exportVolthaKPI.body, hu, block, gaugeVec_Add_some,
        Instrument.labelNames, volthaLabelNames]
  obtain ⟨s1, hs1, hdef⟩ := hb
  refine ⟨s1, exportVolthaKPI_cons ty ts _ rest s s1 hs1, ?_, ?_, ?_, ?_⟩
  · rw [exportVolthaKPI, forRange_singleton, hs1]
  · subst hdef; by_cases hu : c.Upstream = "True" <;> simp [State.update, hu]
  · subst hdef; by_cases hu : c.Upstream = "True" <;> simp [State.update, hu]
  · intro g l
    subst hdef
    by_cases hu : c.Upstream = "True" <;>
      by_cases hl : l = [ld, sn, dev, "NA", "NA", "NA", "Ethernet_Bridge_Port_History"] <;>
      cases g <;> simp [State.update, Registry.apply, hl, hu]

/-- C3. Overwriting is idempotent: for a record in which every entry that has a title is
titled "Ethernet", "PON" or "FEC_History", exporting a second time, from the state the
first export ended in, leaves the registry exactly as the first export left it, and ends
the same way. In particular, for a record of one such entry with a context and metrics,
both exports return and voltha_tx_bytes_total at the label tuple of the entry then holds
the tx_bytes of the entry (100 stays 100, it does not become 200). -/
theorem exportVolthaKPI_set_idempotent (s : State V) (kpi : VolthaKPI V)
    (h : ∀ d md, some d ∈ kpi.SliceDatas → d.Metadata = some md →
      md.Title = "Ethernet" ∨ md.Title = "PON" ∨ md.Title = "FEC_History") :
    (exportVolthaKPI kpi (exportVolthaKPI kpi s).state).state.reg =
        (exportVolthaKPI kpi s).state.reg ∧
      (exportVolthaKPI kpi (exportVolthaKPI kpi s).state).isReturned =
        (exportVolthaKPI kpi s).isReturned ∧
      (∀ d md c m, kpi.SliceDatas = [some d] → d.Metadata = some md →
        md.Context = some c → d.Metrics = some m →
        (exportVolthaKPI kpi s).isReturned = true ∧
        (exportVolthaKPI kpi (exportVolthaKPI kpi s).state).state.reg volthaTxBytesTotal
          [md.LogicalDeviceID, md.SerialNumber, md.DeviceID,
            c.InterfaceID, c.PonID, c.PortNumber, md.Title] = some m.TxBytes) := by
  have hO : OnlyOverwrites (exportVolthaKPI kpi) :=
    onlyOverwrites_forRange _ _ (fun e he =>
      exportVolthaKPI_body_onlyOverwrites e (fun d md hed hmd => h d md (hed ▸ he) hmd))
  refine ⟨(onlyOverwrites_idem hO s).1, (onlyOverwrites_idem hO s).2, ?_⟩
  intro d md c m hk hd hc hm
  have ht := h d md (by simp [hk]) hd
  have h1 := fun st => exportVolthaKPI_body_six_sets st d md c m hd hc hm ht
  simp [exportVolthaKPI, hk, forRange, h1, Result.isReturned, Result.state, State.update,
    Registry.apply]

/-- C5. A record all of whose entries carry a title other than "Ethernet", "PON",
"Ethernet_Bridge_Port_History" and "FEC_History" (so "Ethernet_UNI_History",
"voltha.internal" or any unlisted string, compared exactly) is exported without any
effect: `exportVolthaKPI` returns in the very state it started from, with the registry,
the list of instrument updates and the log all unchanged. Such entries need neither a
context nor metrics. -/
theorem exportVolthaKPI_other_titles_noop (s : State V) (kpi : VolthaKPI V)
    (h : ∀ e ∈ kpi.SliceDatas, ∃ d md, e = some d ∧ d.Metadata = some md ∧
      md.Title ≠ "Ethernet" ∧ md.Title ≠ "PON" ∧
      md.Title ≠ "Ethernet_Bridge_Port_History" ∧ md.Title ≠ "FEC_History") :
    exportVolthaKPI kpi s = .returned s := by
  obtain ⟨ty, ts, es⟩ := kpi
  simp only [exportVolthaKPI]
  simp only at h
  induction es with
  | nil => rfl
  | cons e es ih =>
    obtain ⟨d, md, he, hd, h1, h2, h3, h4⟩ := h e (List.mem_cons_self _ _)
    have hb : exportVolthaKPI.body e s = .returned s := by
      subst he
      by_cases h5 : md.Title = "Ethernet_UNI_History" <;>
        by_cases h6 : md.Title = "voltha.internal" <;>
        simp [exportVolthaKPI.body, hd, h1, h2, h3, h4, h5, h6]
    simp only [forRange, hb]
    exact ih (fun e1 he1 => h e1 (List.mem_cons_of_mem _ he1))

/-- C6. A slice entry of title "FEC_History" is exported exactly as the same entry would
be under the title "Ethernet". For either title `t` and any entry (context and metrics
present or not), `exportVolthaKPI` runs the same block of six `Set` statements, in which
`t` occurs only as the seventh label value. When the entry has a context and metrics,
these are six `Set` updates on the same six instruments, in the same order, with the same
values and the same first six label values under both titles. -/
theorem exportVolthaKPI_fec_history_like_ethernet (s : State V) (ty : String) (ts : V)
    (ld sn dev : String) (mts : V) (ctx : Option Context) (metrics : Option (Metrics V))
    (t : String) (ht : t = "FEC_History" ∨ t = "Ethernet") :
    exportVolthaKPI ⟨ty, ts, [some ⟨metrics, some ⟨ld, t, sn, mts, dev, ctx⟩⟩]⟩ s =
        block [
          GaugeVec.Set volthaTxBytesTotal
            (ctx.map fun c => [ld, sn, dev, c.InterfaceID, c.PonID, c.PortNumber, t])
            (metrics.map fun m => m.TxBytes),
          GaugeVec.Set volthaRxBytesTotal
            (ctx.map fun c => [ld, sn, dev, c.InterfaceID, c.PonID, c.PortNumber, t])
            (metrics.map fun m => m.RxBytes),
          GaugeVec.Set volthaTxPacketsTotal
            (ctx.map fun c => [ld, sn, dev, c.InterfaceID, c.PonID, c.PortNumber, t])
            (metrics.map fun m => m.TxPackets),
          GaugeVec.Set volthaRxPacketsTotal
            (ctx.map fun c => [ld, sn, dev, c.InterfaceID, c.PonID, c.PortNumber, t])
            (metrics.map fun m => m.RxPackets),
          GaugeVec.Set volthaTxErrorPacketsTotal
            (ctx.map fun c => [ld, sn, dev, c.InterfaceID, c.PonID, c.PortNumber, t])
            (metrics.map fun m => m.TxErrorPackets),
          GaugeVec.Set volthaRxErrorPacketsTotal
            (ctx.map fun c => [ld, sn, dev, c.InterfaceID, c.PonID, c.PortNumber, t])
            (metrics.map fun m => m.RxErrorPackets)] s ∧
      (∀ c m, ctx = some c → metrics = some m →
        ∃ s1 : State V,
          exportVolthaKPI ⟨ty, ts, [some ⟨metrics, some ⟨ld, t, sn, mts, dev, ctx⟩⟩]⟩ s =
            .returned s1 ∧
          s1.calls = s.calls ++
            [⟨volthaTxBytesTotal, [ld, sn, dev, c.InterfaceID, c.PonID, c.PortNumber, t], .set m.TxBytes⟩,
              ⟨volthaRxBytesTotal, [ld, sn, dev, c.InterfaceID, c.PonID, c.PortNumber, t], .set m.RxBytes⟩,
              ⟨volthaTxPacketsTotal, [ld, sn, dev, c.InterfaceID, c.PonID, c.PortNumber, t], .set m.TxPackets⟩,
              ⟨volthaRxPacketsTotal, [ld, sn, dev, c.InterfaceID, c.PonID, c.PortNumber, t], .set m.RxPackets⟩,
              ⟨volthaTxErrorPacketsTotal, [ld, sn, dev, c.InterfaceID, c.PonID, c.PortNumber, t], .set m.TxErrorPackets⟩,
              ⟨volthaRxErrorPacketsTotal, [ld, sn, dev, c.InterfaceID, c.PonID, c.PortNumber, t], .set m.RxErrorPackets⟩] ∧
          s1.logs = s.logs ∧
          (∀ g l, s1.reg g l =
            if l = [ld, sn, dev, c.InterfaceID, c.PonID, c.PortNumber, t] then
              match g with
              | volthaTxBytesTotal => some m.TxBytes
              | volthaRxBytesTotal => some m.RxBytes
              | volthaTxPacketsTotal => some m.TxPackets
              | volthaRxPacketsTotal => some m.RxPackets
              | volthaTxErrorPacketsTotal => some m.TxErrorPackets
              | volthaRxErrorPacketsTotal => some m.RxErrorPackets
              | _ => s.reg g l
            else s.reg g l)) := by
  constructor
  · rw [exportVolthaKPI, forRange_singleton]
    rcases ht with ht | ht <;> subst ht <;> simp [exportVolthaKPI.body]
  · intro c m hc hm
    subst hc hm
    have hb := exportVolthaKPI_body_six_sets s ⟨some m, some ⟨ld, t, sn, mts, dev, some c⟩⟩
      ⟨ld, t, sn, mts, dev, some c⟩ c m rfl rfl rfl
      (by rcases ht with h | h <;> simp [h])
    refine ⟨_, by rw [exportVolthaKPI, forRange_singleton, hb], ?_, ?_, ?_⟩
    · simp [State.update]
    · simp [State.update]
    · intro g l
      by_cases hl : l = [ld, sn, dev, c.InterfaceID, c.PonID, c.PortNumber, t]
      · cases g <;> simp [State.update, Registry.apply, hl]
      · cases g <;> simp [State.update, Registry.apply, hl]

end claims

section cumulative
set_option exponentiation.threshold 4096
set_option maxRecDepth 1000000

end cumulative

section dispatch
variable {V : Type} [Zero V] [Add V]

/-- C7. For a record of n ports, `exportOnosKPI` returns after exactly 6 * n instrument
updates, every one a `Set`: for each port in list order, onos_tx_bytes_total,
onos_rx_bytes_total, onos_tx_packets_total, onos_rx_packets_total,
onos_tx_drop_packets_total and onos_rx_drop_packets_total at the labels (deviceId, portId)
are set to bytesTx, bytesRx, pktTx, pktRx, pktTxDrp and pktRxDrp. The registry is the
result of these updates applied in order, so the six series of the last port hold its
values. -/
theorem exportOnosKPI_six_sets_per_port (s : State V) (dev : String)
    (ports : List (OnosPort V)) :
    ∃ cs : List (Call V),
      cs = ports.flatMap (
        fun p =>
          [⟨onosTxBytesTotal, [dev, p.PortID], .set p.TxBytes⟩,
           ⟨onosRxBytesTotal, [dev, p.PortID], .set p.RxBytes⟩,
           ⟨onosTxPacketsTotal, [dev, p.PortID], .set p.TxPackets⟩,
           ⟨onosRxPacketsTotal, [dev, p.PortID], .set p.RxPackets⟩,
           ⟨onosTxDropPacketsTotal, [dev, p.PortID], .set p.TxPacketsDrop⟩,
           ⟨onosRxDropPacketsTotal, [dev, p.PortID], .set p.RxPacketsDrop⟩]) ∧
      exportOnosKPI ⟨dev, ports.map some⟩ s = .returned (s.updates cs) ∧
      (s.updates cs).calls = s.calls ++ cs ∧
      (s.updates cs).logs = s.logs ∧
      cs.length = 6 * ports.length ∧
      (∀ c ∈ cs, ∃ v, c.op = .set v) ∧
      (∀ c ∈ cs, c.inst.labelNames = ["device_id", "port_id"]) ∧
      (∀ pre p, ports = pre ++ [p] →
        (s.updates cs).reg onosTxBytesTotal [dev, p.PortID] = some p.TxBytes ∧
        (s.updates cs).reg onosRxBytesTotal [dev, p.PortID] = some p.RxBytes ∧
        (s.updates cs).reg onosTxPacketsTotal [dev, p.PortID] = some p.TxPackets ∧
        (s.updates cs).reg onosRxPacketsTotal [dev, p.PortID] = some p.RxPackets ∧
        (s.updates cs).reg onosTxDropPacketsTotal [dev, p.PortID] = some p.TxPacketsDrop ∧
        (s.updates cs).reg onosRxDropPacketsTotal [dev, p.PortID] = some p.RxPacketsDrop) := by
  refine ⟨_, rfl, exportOnosKPI_all dev ports s, updates_calls _ _, updates_logs _ _,
    ?_, ?_, ?_, ?_⟩
  · induction ports with
    | nil => rfl
    | cons p ps ih => simp [List.flatMap_cons, ih]; omega
  · intro c hc
    simp only [List.mem_flatMap, List.mem_cons, List.mem_singleton, List.not_mem_nil,
      or_false] at hc
    obtain ⟨p, _, rfl | rfl | rfl | rfl | rfl | rfl⟩ := hc <;> exact ⟨_, rfl⟩
  · intro c hc
    simp only [List.mem_flatMap, List.mem_cons, List.mem_singleton, List.not_mem_nil,
      or_false] at hc
    obtain ⟨p, _, rfl | rfl | rfl | rfl | rfl | rfl⟩ := hc <;> rfl
  · intro pre p hp
    subst hp
    rw [List.flatMap_append, updates_append]
    simp [List.flatMap_cons, State.updates, State.update, Registry.apply]

/-- C8 (the defect). Of the 21 statements of `exportOnosAaaKPI`, nine select a field that
the declaration of `OnosAaaKPI` in `types.go` (twelve fields) does not have. The twelve
gauges bound to a declared field end at the value of that field; the other nine are not
set from a field of the record: no record has a value under these names, and each of
these gauges ends at whatever the environment supplies for the missing selector. -/
theorem exportOnosAaaKPI_selects_undeclared_fields (undeclared : String → V)
    (kpi : OnosAaaKPI V) (s : State V) :
    exportOnosAaaKPI.sets.length = 21 ∧
      OnosAaaKPI.declaredFields.length = 12 ∧
      exportOnosAaaKPI.sets.filter (fun b => !OnosAaaKPI.declares b.2) =
        [(onosaaaEapolLogoffRx, "RxeapolLogoff"),
         (onosaaaEapolResIdentityMsgTrans, "EapolResIdentityMsgTrans"),
         (onosaaaAuthSuccessTrans, "AuthSuccessTrans"),
         (onosaaaAuthFailureTrans, "AuthFailureTrans"),
         (onosaaaStartReqTrans, "StartReqTrans"),
         (onosaaaTxAccessReqPkt, "TxAccessReqPkt"),
         (onosaaaRxaccessChallPkt, "RxaccessChallPkt"),
         (onosaaaEapPktTxauthEap, "EapPktTxauthEap"),
         (onosaaaTransRespnotNak, "TransRespnotNak")] ∧
      ¬ (∀ b ∈ exportOnosAaaKPI.sets, OnosAaaKPI.declares b.2 = true) ∧
      (∀ b ∈ exportOnosAaaKPI.sets, OnosAaaKPI.declares b.2 = false →
        kpi.field? b.2 = none ∧
        (exportOnosAaaKPI undeclared kpi s).state.reg b.1 [] = some (undeclared b.2)) ∧
      (∀ b ∈ exportOnosAaaKPI.sets, OnosAaaKPI.declares b.2 = true →
        (kpi.field? b.2).isSome = true ∧
        (exportOnosAaaKPI undeclared kpi s).state.reg b.1 [] = kpi.field? b.2) := by
  refine ⟨by decide, by decide, by decide, by decide, ?_, ?_⟩
  · intro b hb hdecl
    rw [exportOnosAaaKPI_eq]
    simp only [exportOnosAaaKPI.sets, List.mem_cons, List.mem_singleton, List.not_mem_nil,
      or_false] at hb
    rcases hb with rfl | rfl | rfl | rfl | rfl | rfl | rfl | rfl | rfl | rfl | rfl | rfl |
      rfl | rfl | rfl | rfl | rfl | rfl | rfl | rfl | rfl <;>
      first
        | (exfalso; revert hdecl; decide)
        | (simp [Result.state, exportOnosAaaKPI.sets, State.updates, State.update,
            Registry.apply, OnosAaaKPI.field?])
  · intro b hb hdecl
    rw [exportOnosAaaKPI_eq]
    simp only [exportOnosAaaKPI.sets, List.mem_cons, List.mem_singleton, List.not_mem_nil,
      or_false] at hb
    rcases hb with rfl | rfl | rfl | rfl | rfl | rfl | rfl | rfl | rfl | rfl | rfl | rfl |
      rfl | rfl | rfl | rfl | rfl | rfl | rfl | rfl | rfl <;>
      first
        | (exfalso; revert hdecl; decide)
        | (simp [Result.state, exportOnosAaaKPI.sets, State.updates, State.update,
            Registry.apply, OnosAaaKPI.field?])

/-- C9. For a topic that is not exactly "voltha.kpis", "onos.kpis", "importer.kpis" or
"onos.aaa.stats.kpis", `export` returns normally whatever the payload and whatever the
decoder would do with it: the result does not depend on either, no instrument update is
performed, the registry is unchanged, and the only effect is one warning line in the
log. -/
theorem exportMessage_unknown_topic (json : Unmarshal V) (undeclared : String → V)
    (topic : String) (data : Bytes) (s : State V)
    (h1 : topic ≠ "voltha.kpis") (h2 : topic ≠ "onos.kpis")
    (h3 : topic ≠ "importer.kpis") (h4 : topic ≠ "onos.aaa.stats.kpis") :
    exportMessage json undeclared topic data s =
        .returned ⟨s.reg, s.calls,
          s.logs ++ [(LogLevel.warn, "Unexpected export. Should not come here")]⟩ ∧
      (exportMessage json undeclared topic data s).isFatal = false ∧
      (exportMessage json undeclared topic data s).isPanicked = false ∧
      (exportMessage json undeclared topic data s).state.reg = s.reg ∧
      (exportMessage json undeclared topic data s).state.calls = s.calls ∧
      (∀ (json2 : Unmarshal V) (data2 : Bytes),
        exportMessage json2 undeclared topic data2 s =
          exportMessage json undeclared topic data s) := by
  have h : ∀ (j : Unmarshal V) (b : Bytes), exportMessage j undeclared topic b s =
      .returned ⟨s.reg, s.calls,
        s.logs ++ [(LogLevel.warn, "Unexpected export. Should not come here")]⟩ := by
    intro j b
    simp [exportMessage, h1, h2, h3, h4, logger.Warn]
  refine ⟨h json data, ?_, ?_, ?_, ?_, ?_⟩
  · rw [h]; rfl
  · rw [h]; rfl
  · rw [h]; rfl
  · rw [h]; rfl
  · intro j b; rw [h, h]

end dispatch

section frames
variable {V : Type} [Zero V] [Add V]

/-- C11. No cross-schema mutation. From any state: `exportVolthaKPI` performs updates on
the six voltha gauge vectors only and leaves every series of every other instrument
unchanged; `exportOnosKPI` likewise with the six onos gauge vectors; `exportOnosAaaKPI`
likewise with the 21 onosaaa gauges; and `exportImporterKPI` returns with the registry
and the list of updates unchanged, having written one informational log line. The three
families are named voltha_*, onos_* and onosaaa_*, are pairwise disjoint and cover all
instruments. -/
theorem exporters_no_cross_schema_mutation (s : State V) :
    (∀ (kpi : VolthaKPI V),
      (∀ g l, g ∉ [volthaTxBytesTotal, volthaRxBytesTotal, volthaTxPacketsTotal,
        volthaRxPacketsTotal, volthaTxErrorPacketsTotal, volthaRxErrorPacketsTotal] →
        (exportVolthaKPI kpi s).state.reg g l = s.reg g l) ∧
      ∃ cs, (exportVolthaKPI kpi s).state.calls = s.calls ++ cs ∧
        ∀ c ∈ cs, c.inst ∈ [volthaTxBytesTotal, volthaRxBytesTotal, volthaTxPacketsTotal,
        volthaRxPacketsTotal, volthaTxErrorPacketsTotal, volthaRxErrorPacketsTotal]) ∧
    (∀ (kpi : OnosKPI V),
      (∀ g l, g ∉ [onosTxBytesTotal, onosRxBytesTotal, onosTxPacketsTotal,
        onosRxPacketsTotal, onosTxDropPacketsTotal, onosRxDropPacketsTotal] →
        (exportOnosKPI kpi s).state.reg g l = s.reg g l) ∧
      ∃ cs, (exportOnosKPI kpi s).state.calls = s.calls ++ cs ∧
        ∀ c ∈ cs, c.inst ∈ [onosTxBytesTotal, onosRxBytesTotal, onosTxPacketsTotal,
        onosRxPacketsTotal, onosTxDropPacketsTotal, onosRxDropPacketsTotal]) ∧
    (∀ (undeclared : String → V) (kpi : OnosAaaKPI V),
      (∀ g l, g ∉ exportOnosAaaKPI.sets.map Prod.fst →
        (exportOnosAaaKPI undeclared kpi s).state.reg g l = s.reg g l) ∧
      ∃ cs, (exportOnosAaaKPI undeclared kpi s).state.calls = s.calls ++ cs ∧
        ∀ c ∈ cs, c.inst ∈ exportOnosAaaKPI.sets.map Prod.fst) ∧
    (∀ (kpi : ImporterKPI),
      exportImporterKPI kpi s =
        .returned ⟨s.reg, s.calls, s.logs ++ [(LogLevel.info, "To be implemented")]⟩) ∧
    ([volthaTxBytesTotal, volthaRxBytesTotal, volthaTxPacketsTotal,
        volthaRxPacketsTotal, volthaTxErrorPacketsTotal, volthaRxErrorPacketsTotal].map Instrument.name =
      ["voltha_tx_bytes_total", "voltha_rx_bytes_total", "voltha_tx_packets_total",
        "voltha_rx_packets_total", "voltha_tx_error_packets_total",
        "voltha_rx_error_packets_total"]) ∧
    ([onosTxBytesTotal, onosRxBytesTotal, onosTxPacketsTotal,
        onosRxPacketsTotal, onosTxDropPacketsTotal, onosRxDropPacketsTotal].map Instrument.name =
      ["onos_tx_bytes_total", "onos_rx_bytes_total", "onos_tx_packets_total",
        "onos_rx_packets_total", "onos_tx_drop_packets_total",
        "onos_rx_drop_packets_total"]) ∧
    ((exportOnosAaaKPI.sets.map Prod.fst).map Instrument.name =
      ["onosaaa_rx_accept_responses", "onosaaa_rx_reject_responses",
        "onosaaa_rx_challenge_response", "onosaaa_tx_access_requests",
        "onosaaa_rx_invalid_validators", "onosaaa_rx_unknown_type",
        "onosaaa_pending_responses", "onosaaa_rx_dropped_responses",
        "onosaaa_rx_malformed_responses", "onosaaa_rx_from_unknown_server",
        "onosaaa_request_rttmillis", "onosaaa_request_re_tx", "onosaaa_eapol_Logoff_Rx",
        "onosaaa_eapol_Res_IdentityMsg_Trans", "onosaaa_auth_Success_Trans",
        "onosaaa_auth_Failure_Trans", "onosaaa_start_Req_Trans",
        "onosaaa_access_Req_Pkt_Tx", "onosaaa_access_Chall_Pkt_Rx",
        "onosaaa_eap_Pkt_Tx_auth_Eap", "onosaaa_trans_Resp_not_Nak"]) ∧
    (∀ g : Instrument,
      (g ∈ [volthaTxBytesTotal, volthaRxBytesTotal, volthaTxPacketsTotal,
        volthaRxPacketsTotal, volthaTxErrorPacketsTotal, volthaRxErrorPacketsTotal] ∧
        g ∉ [onosTxBytesTotal, onosRxBytesTotal, onosTxPacketsTotal,
        onosRxPacketsTotal, onosTxDropPacketsTotal, onosRxDropPacketsTotal] ∧
        g ∉ exportOnosAaaKPI.sets.map Prod.fst) ∨
      (g ∉ [volthaTxBytesTotal, volthaRxBytesTotal, volthaTxPacketsTotal,
        volthaRxPacketsTotal, volthaTxErrorPacketsTotal, volthaRxErrorPacketsTotal] ∧
        g ∈ [onosTxBytesTotal, onosRxBytesTotal, onosTxPacketsTotal,
        onosRxPacketsTotal, onosTxDropPacketsTotal, onosRxDropPacketsTotal] ∧
        g ∉ exportOnosAaaKPI.sets.map Prod.fst) ∨
      (g ∉ [volthaTxBytesTotal, volthaRxBytesTotal, volthaTxPacketsTotal,
        volthaRxPacketsTotal, volthaTxErrorPacketsTotal, volthaRxErrorPacketsTotal] ∧
        g ∉ [onosTxBytesTotal, onosRxBytesTotal, onosTxPacketsTotal,
        onosRxPacketsTotal, onosTxDropPacketsTotal, onosRxDropPacketsTotal] ∧
        g ∈ exportOnosAaaKPI.sets.map Prod.fst)) := by
  refine ⟨fun kpi => ?_, fun kpi => ?_, fun undeclared kpi => ?_, fun kpi => rfl,
    rfl, rfl, by decide, fun g => by cases g <;> decide⟩
  · obtain ⟨hc, hr⟩ := exportVolthaKPI_confined_six kpi s
    exact ⟨fun g l hg => hr g l (fun _ => hg), hc⟩
  · obtain ⟨hc, hr⟩ := exportOnosKPI_confined_six kpi s
    exact ⟨fun g l hg => hr g l (fun _ => hg), hc⟩
  · obtain ⟨hc, hr⟩ := exportOnosAaaKPI_confined undeclared kpi s
    exact ⟨fun g l hg => hr g l (fun _ => hg), hc⟩

/-- C12. `exportVolthaKPI` returns (no nil dereference) exactly when every element of
`slice_data` is present and has metadata, and every entry titled "Ethernet", "PON",
"FEC_History" or "Ethernet_Bridge_Port_History" has both a context and metrics; entries
of any other title need neither. When it does not return it has panicked. An entry that
is null or has no metadata, coming after entries that were exported, ends the export in
a panic in exactly the state those earlier entries produced: their updates stay applied
and nothing of the later entries is. -/
theorem exportVolthaKPI_returns_iff (s : State V) (kpi : VolthaKPI V) :
    ((exportVolthaKPI kpi s).isReturned = true ↔
      ∀ e ∈ kpi.SliceDatas, ∃ d md, e = some d ∧ d.Metadata = some md ∧
        ((md.Title = "Ethernet" ∨ md.Title = "PON" ∨ md.Title = "FEC_History" ∨
            md.Title = "Ethernet_Bridge_Port_History") →
          md.Context.isSome = true ∧ d.Metrics.isSome = true)) ∧
    ((exportVolthaKPI kpi s).isReturned = false ↔
      (exportVolthaKPI kpi s).isPanicked = true) ∧
    (∀ ty ts pre e post sa,
      exportVolthaKPI ⟨ty, ts, pre⟩ s = .returned sa →
      (e = none ∨ ∃ d, e = some d ∧ d.Metadata = none) →
      exportVolthaKPI ⟨ty, ts, pre ++ e :: post⟩ s = .panicked sa) := by
  refine ⟨forRange_isReturned _ _ exportVolthaKPI_body_isReturned _ s,
    isPanicked_of_not_returned (neverFatal_exportVolthaKPI kpi s), ?_⟩
  intro ty ts pre e post sa hpre he
  simp only [exportVolthaKPI] at hpre ⊢
  rw [forRange_append, hpre]
  simp only [forRange, exportVolthaKPI_body_nil e sa he]

/-- C13. Later entries win. For every label tuple whose title label is "Ethernet", "PON"
or "FEC_History": if no entry of the record has that label tuple, every series at it is
unchanged by `exportVolthaKPI`; and when `exportVolthaKPI` returns, the last entry of the
record with exactly that label tuple has metrics, and the six voltha series at the tuple
hold the tx_bytes, rx_bytes, tx_packets, rx_packets, tx_error_packets and
rx_error_packets of that entry. Every update performed is either a `Set` at a label tuple
whose title is one of these three, or an `Add` at a tuple ending in "NA", "NA", "NA",
"Ethernet_Bridge_Port_History", so a `Set` and an `Add` never target the same series. -/
theorem exportVolthaKPI_last_entry_wins (s : State V) (kpi : VolthaKPI V)
    (ld sn dev intf pon port t : String)
    (ht : t = "Ethernet" ∨ t = "PON" ∨ t = "FEC_History") :
    ((∀ e ∈ kpi.SliceDatas, entryLabels e ≠ some [ld, sn, dev, intf, pon, port, t]) →
        ∀ g, (exportVolthaKPI kpi s).state.reg g [ld, sn, dev, intf, pon, port, t] =
          s.reg g [ld, sn, dev, intf, pon, port, t]) ∧
      (∀ s1, exportVolthaKPI kpi s = .returned s1 →
        ∀ pre d post, kpi.SliceDatas = pre ++ some d :: post →
        entryLabels (some d) = some [ld, sn, dev, intf, pon, port, t] →
        (∀ e ∈ post, entryLabels e ≠ some [ld, sn, dev, intf, pon, port, t]) →
        ∃ m, d.Metrics = some m ∧
          s1.reg volthaTxBytesTotal [ld, sn, dev, intf, pon, port, t] = some m.TxBytes ∧
          s1.reg volthaRxBytesTotal [ld, sn, dev, intf, pon, port, t] = some m.RxBytes ∧
          s1.reg volthaTxPacketsTotal [ld, sn, dev, intf, pon, port, t] = some m.TxPackets ∧
          s1.reg volthaRxPacketsTotal [ld, sn, dev, intf, pon, port, t] = some m.RxPackets ∧
          s1.reg volthaTxErrorPacketsTotal [ld, sn, dev, intf, pon, port, t] = some m.TxErrorPackets ∧
          s1.reg volthaRxErrorPacketsTotal [ld, sn, dev, intf, pon, port, t] = some m.RxErrorPackets) ∧
      (∃ cs, (exportVolthaKPI kpi s).state.calls = s.calls ++ cs ∧ ∀ c ∈ cs,
        (∃ v a b d i p q t1, c.op = .set v ∧ c.labels = [a, b, d, i, p, q, t1] ∧
          (t1 = "Ethernet" ∨ t1 = "PON" ∨ t1 = "FEC_History")) ∨
        (∃ v a b d, c.op = .add v ∧
          c.labels = [a, b, d, "NA", "NA", "NA", "Ethernet_Bridge_Port_History"])) := by
  have hframe : ∀ (es : List (Option (SliceData V))) (sa : State V),
      (∀ e ∈ es, entryLabels e ≠ some [ld, sn, dev, intf, pon, port, t]) →
      ∀ g, (forRange exportVolthaKPI.body es sa).state.reg g [ld, sn, dev, intf, pon, port, t] =
        sa.reg g [ld, sn, dev, intf, pon, port, t] := by
    intro es sa hne g
    exact (confined_forRange (P := fun c : Call V => c.labels ≠ [ld, sn, dev, intf, pon, port, t])
      exportVolthaKPI.body es
      (fun e he => exportVolthaKPI_body_confined_ne e ld sn dev intf pon port t ht
        (hne e he)) sa).2 g [ld, sn, dev, intf, pon, port, t] (fun _ h => h rfl)
  refine ⟨hframe _ s, ?_, ?_⟩
  · intro s1 hret pre d post hk hd hpost
    simp only [exportVolthaKPI, hk, forRange_append] at hret
    cases hpre : forRange exportVolthaKPI.body pre s with
    | returned sa =>
      simp only [hpre, forRange] at hret
      cases hb : exportVolthaKPI.body (some d) sa with
      | returned sb =>
        simp only [hb] at hret
        cases hmd : d.Metadata with
        | none => simp [entryLabels, hmd] at hd
        | some md =>
          cases hc : md.Context with
          | none => simp [entryLabels, hmd, hc] at hd
          | some c =>
            simp only [entryLabels, hmd, hc, Option.map_some', Option.some.injEq] at hd
            have htitle : md.Title = "Ethernet" ∨ md.Title = "PON" ∨
                md.Title = "FEC_History" := by
              have : md.Title = t := by
                simp only [List.cons.injEq, and_true] at hd
                exact hd.2.2.2.2.2.2
              rw [this]; exact ht
            cases hm : d.Metrics with
            | none =>
              have hret1 := (exportVolthaKPI_body_isReturned (some d) sa).mp
                (by rw [hb]; rfl)
              obtain ⟨d1, md1, hd1, hmd1, himp⟩ := hret1
              simp only [Option.some.injEq] at hd1
              subst hd1
              rw [hmd] at hmd1
              simp only [Option.some.injEq] at hmd1
              subst hmd1
              have := (himp (by
                rcases htitle with h | h | h
                · exact Or.inl h
                · exact Or.inr (Or.inl h)
                · exact Or.inr (Or.inr (Or.inl h)))).2
              simp [hm] at this
            | some m =>
              refine ⟨m, rfl, ?_⟩
              have hsix := exportVolthaKPI_body_six_sets sa d md c m hmd hc hm htitle
              rw [hb] at hsix
              simp only [Result.returned.injEq] at hsix
              have hpost1 := hframe post sb hpost
              rw [hret] at hpost1
              simp only [Result.state] at hpost1
              rw [← hd] at hpost1 ⊢
              rw [hsix] at hpost1
              simp only [hpost1]
              simp [State.update, Registry.apply]
      | panicked sb => simp [hb] at hret
      | fatal sb => simp [hb] at hret
    | panicked sa => simp [hpre] at hret
    | fatal sa => simp [hpre] at hret
  · exact (confined_forRange exportVolthaKPI.body kpi.SliceDatas
      (fun e _ => exportVolthaKPI_body_confined_kind e) s).1

end frames

/-! ## The claims at sample inputs -/

section witnesses

/-- C1 at a sample: a PON entry exported from the startup registry. -/
theorem exportVolthaKPI_ethernet_pon_sets_witness :
    ∃ s1 : State ℚ,
      exportVolthaKPI ⟨"slice", 0, [some (sampleSlice "PON")]⟩ State.initial = .returned s1 ∧
      s1.reg volthaTxBytesTotal ["ld", "sn", "dev", "0", "1", "2", "PON"] = some 100 ∧
      s1.reg volthaRxErrorPacketsTotal ["ld", "sn", "dev", "0", "1", "2", "PON"] = some 2 ∧
      s1.calls.length = 6 := by
  obtain ⟨s1, _, h2, h3, _, h5, _⟩ := exportVolthaKPI_ethernet_pon_sets State.initial
    "slice" 0 [] "ld" "PON" "sn" "dev" 0 sampleContext sampleMetrics (Or.inr rfl)
  refine ⟨s1, h2, ?_, ?_, ?_⟩
  · simpa [sampleContext, sampleMetrics] using h5 volthaTxBytesTotal
      ["ld", "sn", "dev", "0", "1", "2", "PON"]
  · simpa [sampleContext, sampleMetrics] using h5 volthaRxErrorPacketsTotal
      ["ld", "sn", "dev", "0", "1", "2", "PON"]
  · simp [h3, State.initial]

/-- C2 at a sample: an upstream bridge-port entry adds 5 packets and 320 octets to the Tx series and creates no Rx series. -/
theorem exportVolthaKPI_bridge_port_history_adds_witness :
    ∃ s1 : State ℚ,
      exportVolthaKPI ⟨"slice", 0, [some (sampleSlice "Ethernet_Bridge_Port_History")]⟩
        State.initial = .returned s1 ∧
      s1.reg volthaTxPacketsTotal
        ["ld", "sn", "dev", "NA", "NA", "NA", "Ethernet_Bridge_Port_History"] = some 5 ∧
      s1.reg volthaTxBytesTotal
        ["ld", "sn", "dev", "NA", "NA", "NA", "Ethernet_Bridge_Port_History"] = some 320 ∧
      s1.reg volthaRxPacketsTotal
        ["ld", "sn", "dev", "NA", "NA", "NA", "Ethernet_Bridge_Port_History"] = none ∧
      s1.calls.length = 2 := by
  obtain ⟨s1, _, h2, h3, _, h5⟩ := exportVolthaKPI_bridge_port_history_adds State.initial
    "slice" 0 [] "ld" "sn" "dev" 0 sampleContext sampleMetrics
  refine ⟨s1, h2, ?_, ?_, ?_, ?_⟩
  · simpa [sampleContext, sampleMetrics, State.initial, Registry.initial,
      Instrument.labelNames, volthaLabelNames] using h5 volthaTxPacketsTotal
      ["ld", "sn", "dev", "NA", "NA", "NA", "Ethernet_Bridge_Port_History"]
  · simpa [sampleContext, sampleMetrics, State.initial, Registry.initial,
      Instrument.labelNames, volthaLabelNames] using h5 volthaTxBytesTotal
      ["ld", "sn", "dev", "NA", "NA", "NA", "Ethernet_Bridge_Port_History"]
  · simpa [sampleContext, sampleMetrics, State.initial, Registry.initial,
      Instrument.labelNames, volthaLabelNames] using h5 volthaRxPacketsTotal
      ["ld", "sn", "dev", "NA", "NA", "NA", "Ethernet_Bridge_Port_History"]
  · simp [h3, State.initial, sampleContext]

/-- C3 at a sample: tx_bytes 100 exported twice leaves the series at 100. -/
theorem exportVolthaKPI_set_idempotent_witness :
    (exportVolthaKPI ⟨"slice", 0, [some (sampleSlice "Ethernet")]⟩
      (exportVolthaKPI ⟨"slice", 0, [some (sampleSlice "Ethernet")]⟩
        (State.initial : State ℚ)).state).state.reg volthaTxBytesTotal
      ["ld", "sn", "dev", "0", "1", "2", "Ethernet"] = some 100 := by
  have h := (exportVolthaKPI_set_idempotent (State.initial : State ℚ)
    ⟨"slice", 0, [some (sampleSlice "Ethernet")]⟩ (by
      intro d md hd hmd
      simp only [List.mem_singleton, Option.some.injEq] at hd
      subst hd
      simp only [sampleSlice, Option.some.injEq] at hmd
      subst hmd
      exact Or.inl rfl)).2.2 (sampleSlice "Ethernet") (sampleMetadata "Ethernet")
    sampleContext sampleMetrics rfl rfl rfl rfl
  simpa [sampleMetadata, sampleContext, sampleMetrics] using h.2

/-- C5 at a sample: the two named no-op titles, a title differing in case only, and the empty title. -/
theorem exportVolthaKPI_other_titles_noop_witness :
    exportVolthaKPI ⟨"slice", 0, [some (bareSlice "Ethernet_UNI_History"),
      some (bareSlice "voltha.internal"), some (bareSlice "ethernet"),
      some (sampleSlice "")]⟩ (State.initial : State ℚ) = .returned State.initial := by
  refine exportVolthaKPI_other_titles_noop State.initial _ ?_
  intro e he
  simp only [List.mem_cons, List.mem_singleton, List.not_mem_nil, or_false] at he
  rcases he with rfl | rfl | rfl | rfl
  · exact ⟨_, _, rfl, rfl, by decide, by decide, by decide, by decide⟩
  · exact ⟨_, _, rfl, rfl, by decide, by decide, by decide, by decide⟩
  · exact ⟨_, _, rfl, rfl, by decide, by decide, by decide, by decide⟩
  · exact ⟨_, _, rfl, rfl, by decide, by decide, by decide, by decide⟩

/-- C6 at a sample: a FEC_History entry exported from the startup registry. -/
theorem exportVolthaKPI_fec_history_like_ethernet_witness :
    ∃ s1 : State ℚ,
      exportVolthaKPI ⟨"slice", 0, [some (sampleSlice "FEC_History")]⟩ State.initial =
        .returned s1 ∧
      s1.reg volthaTxBytesTotal ["ld", "sn", "dev", "0", "1", "2", "FEC_History"] =
        some 100 ∧
      s1.calls.length = 6 := by
  obtain ⟨s1, h1, h2, _, h4⟩ := (exportVolthaKPI_fec_history_like_ethernet
    (State.initial : State ℚ) "slice" 0 "ld" "sn" "dev" 0 (some sampleContext)
    (some sampleMetrics) "FEC_History" (Or.inl rfl)).2 sampleContext sampleMetrics rfl rfl
  refine ⟨s1, h1, ?_, ?_⟩
  · simpa [sampleContext, sampleMetrics] using h4 volthaTxBytesTotal
      ["ld", "sn", "dev", "0", "1", "2", "FEC_History"]
  · simp [h2, State.initial]

/-- C7 at a sample: two ports give twelve updates. -/
theorem exportOnosKPI_six_sets_per_port_witness :
    ∃ s1 : State ℚ,
      exportOnosKPI ⟨"of:1", samplePorts.map some⟩ State.initial = .returned s1 ∧
      s1.calls.length = 12 ∧
      s1.reg onosRxPacketsTotal ["of:1", "2"] = some 11 := by
  obtain ⟨cs, _, h2, h3, _, h5, _, _, h8⟩ := exportOnosKPI_six_sets_per_port
    (State.initial : State ℚ) "of:1" samplePorts
  refine ⟨_, h2, ?_, ?_⟩
  · rw [h3, List.length_append, h5]; rfl
  · exact (h8 [⟨"1", 10, 20, 30, 40, 1, 2⟩] ⟨"2", 11, 21, 31, 41, 3, 4⟩ rfl).2.2.2.1

/-- C9 at a sample: a topic that differs from a recognised one in case only. -/
theorem exportMessage_unknown_topic_witness :
    exportMessage sampleUnmarshal (fun _ => 0) "Voltha.kpis" [123, 125]
        (State.initial : State ℚ) =
      .returned ⟨Registry.initial, [],
        [(LogLevel.warn, "Unexpected export. Should not come here")]⟩ :=
  (exportMessage_unknown_topic sampleUnmarshal (fun _ => 0) "Voltha.kpis" [123, 125]
    State.initial (by decide) (by decide) (by decide) (by decide)).1

/-- C11 at a sample: exporting the sample voltha record from the startup state leaves
an onos series and an onosaaa gauge as they were. -/
theorem exporters_no_cross_schema_mutation_witness :
    (exportVolthaKPI sampleRecord (State.initial : State ℚ)).state.reg
        onosTxBytesTotal ["of:1", "1"] = none ∧
      (exportVolthaKPI sampleRecord (State.initial : State ℚ)).state.reg
        onosaaaPendingRequests [] = some 0 ∧
      (exportOnosKPI ⟨"of:1", samplePorts.map some⟩ (State.initial : State ℚ)).state.reg
        volthaTxBytesTotal ["ld", "sn", "dev", "0", "1", "2", "Ethernet"] = none := by
  have h := exporters_no_cross_schema_mutation (State.initial : State ℚ)
  refine ⟨?_, ?_, ?_⟩
  · rw [(h.1 sampleRecord).1 onosTxBytesTotal _ (by decide)]; rfl
  · rw [(h.1 sampleRecord).1 onosaaaPendingRequests _ (by decide)]; rfl
  · rw [(h.2.1 ⟨"of:1", samplePorts.map some⟩).1 volthaTxBytesTotal _ (by decide)]; rfl

/-- C12 at a sample: a record with a null element after an Ethernet entry panics with
the Ethernet entry applied, and a record of complete entries returns. -/
theorem exportVolthaKPI_returns_iff_witness :
    (∃ sa : State ℚ,
      exportVolthaKPI ⟨"slice", 0, [some (sampleSlice "Ethernet"), none,
        some (sampleSlice "PON")]⟩ State.initial = .panicked sa ∧
      sa.reg volthaTxBytesTotal ["ld", "sn", "dev", "0", "1", "2", "Ethernet"] = some 100 ∧
      sa.reg volthaTxBytesTotal ["ld", "sn", "dev", "0", "1", "2", "PON"] = none) ∧
    (exportVolthaKPI sampleRecord (State.initial : State ℚ)).isReturned = true ∧
    (exportVolthaKPI ⟨"slice", 0, [some (bareSlice "Ethernet")]⟩
      (State.initial : State ℚ)).isReturned = false := by
  refine ⟨?_, ?_, ?_⟩
  · have hpre := exportVolthaKPI_body_six_sets (State.initial : State ℚ)
      (sampleSlice "Ethernet") (sampleMetadata "Ethernet") sampleContext sampleMetrics
      rfl rfl rfl (Or.inl rfl)
    refine ⟨_, (exportVolthaKPI_returns_iff (State.initial : State ℚ)
      ⟨"slice", 0, []⟩).2.2 "slice" 0 [some (sampleSlice "Ethernet")] none
      [some (sampleSlice "PON")] _
      (by rw [exportVolthaKPI, forRange_singleton, hpre]) (Or.inl rfl), ?_, ?_⟩
    · simp [State.update, Registry.apply, sampleMetadata, sampleContext, sampleMetrics]
    · simp [State.update, Registry.apply, sampleMetadata, sampleContext, State.initial,
        Registry.initial, Instrument.labelNames, volthaLabelNames]
  · refine (exportVolthaKPI_returns_iff (State.initial : State ℚ) sampleRecord).1.mpr ?_
    intro e he
    simp only [sampleRecord, List.mem_cons, List.mem_singleton, List.not_mem_nil,
      or_false] at he
    rcases he with rfl | rfl | rfl <;> exact ⟨_, _, rfl, rfl, fun _ => ⟨rfl, rfl⟩⟩
  · have h := (exportVolthaKPI_returns_iff (State.initial : State ℚ)
      ⟨"slice", 0, [some (bareSlice "Ethernet")]⟩).1
    cases hr : (exportVolthaKPI ⟨"slice", 0, [some (bareSlice "Ethernet")]⟩
      (State.initial : State ℚ)).isReturned with
    | false => rfl
    | true =>
      obtain ⟨d, md, hd, hmd, himp⟩ := h.mp hr (some (bareSlice "Ethernet")) (by simp)
      simp only [Option.some.injEq] at hd
      subst hd
      simp only [bareSlice, Option.some.injEq] at hmd
      subst hmd
      have := (himp (Or.inl rfl)).1
      simp at this

/-- C13 at a sample: of two Ethernet entries with the same label tuple and a bridge-port
entry between them, the second Ethernet entry decides the value (150, not 100). -/
theorem exportVolthaKPI_last_entry_wins_witness :
    (exportVolthaKPI sampleRecord (State.initial : State ℚ)).state.reg volthaTxBytesTotal
      ["ld", "sn", "dev", "0", "1", "2", "Ethernet"] = some 150 := by
  have hret : exportVolthaKPI sampleRecord (State.initial : State ℚ) =
      .returned (exportVolthaKPI sampleRecord (State.initial : State ℚ)).state :=
    result_of_isReturned ((forRange_isReturned _ _ exportVolthaKPI_body_isReturned _ _).mpr
      (by
        intro e he
        simp only [sampleRecord, List.mem_cons, List.mem_singleton, List.not_mem_nil,
          or_false] at he
        rcases he with rfl | rfl | rfl <;> exact ⟨_, _, rfl, rfl, fun _ => ⟨rfl, rfl⟩⟩))
  obtain ⟨m, hm, h1, _⟩ := (exportVolthaKPI_last_entry_wins (State.initial : State ℚ)
    sampleRecord "ld" "sn" "dev" "0" "1" "2" "Ethernet" (Or.inl rfl)).2.1 _ hret
    [some (sampleSlice "Ethernet"), some (sampleSlice "Ethernet_Bridge_Port_History")]
    ⟨some sampleMetrics2, some (sampleMetadata "Ethernet")⟩ [] rfl rfl (by simp)
  simp only [Option.some.injEq] at hm
  subst hm
  simpa [sampleMetrics2] using h1

end witnesses

end KafkaTopicExporter
